import Mathlib

/-!
# noob-channel: the channel allocation and rotation manager

A shallow embedding of `noobChannel/manager.go` and of the load part of
`noobChannel/init.go`.  The manager keeps two `uint64` counters and the
current channel; every join request (`respondToHello`) increments the
occupancy counter, persists it, and rotates to a freshly generated channel
once the counter exceeds `noobChannelCap`.

The external collaborators (key-value store faults, hash, codename
generator, channel constructor, marshalling, file system faults) are taken
as parameters, collected in `Env`.  The mutable world outside the manager
(store contents, admin-key directories and files, randomness stream, log)
is threaded explicitly as a `World`.
-/

set_option autoImplicit false

namespace NoobChannel

/-! ## Basic data -/

/-- A Go byte slice; the nil slice is the empty list. -/
abbrev Bytes := List UInt8

/-- A Go error value, represented by its message. -/
abbrev Err := String

/-- The message wrapping of `errors.WithMessage(err, msg)`. -/
def WithMessage (err : Err) (msg : String) : Err := msg ++ ": " ++ err

/-- Number of values of a Go `uint64`. -/
def uint64Size : Nat := 18446744073709551616

/-- Go addition `x + 1` on `uint64` (wraps around). -/
def inc64 (x : Nat) : Nat := (x + 1) % uint64Size

/-- Go subtraction `x - 1` on `uint64` (wraps around). -/
def dec64 (x : Nat) : Nat := (x + uint64Size - 1) % uint64Size

/-- The conversion `[]byte(s)`: the UTF-8 encoding of a Go string. -/
def stringBytes (s : String) : Bytes := s.data.flatMap String.utf8EncodeChar

/-- The formatting `fmt.Sprintf("%d", n)` of an unsigned integer: its decimal digits. -/
def sprintfD (n : Nat) : String := toString n

/-! ## Constants of `manager.go` -/

def noobChannelCap : Nat := 100
def noobChannelName : String := "NC_%s"
def noobChannelDescription : String := "A channel for you super noobs that need some help"
def noobChannelSalt : String := "i\x27m a little teapot short and stout"
def channelManagerIdentityKey : String := "managerIdentity"
def channelCountKey : String := "channelCount"
def inCurrentChannelKey : String := "inCurrentChannel"
def currentChannelKey : String := "currentChannel"

/-- The formatting `fmt.Sprintf(noobChannelName, c)`: the template `noobChannelName` is the
literal text `NC_` followed by the single verb `%s`. -/
def sprintfNoobChannelName (c : String) : String := "NC_" ++ c

/-! ## `encoding/binary`, big endian -/

/-- The byte `byte(v >> (8*k))`. -/
def byteAt (v k : Nat) : UInt8 := UInt8.ofNat (v / 2 ^ (8 * k))

/-- The eight bytes written by `binary.BigEndian.PutUint64(b, v)` into `b = make([]byte, 8)`. -/
def PutUint64 (v : Nat) : Bytes :=
  [byteAt v 7, byteAt v 6, byteAt v 5, byteAt v 4, byteAt v 3, byteAt v 2, byteAt v 1, byteAt v 0]

/-- The function `binary.BigEndian.Uint64(b)`: it reads `b[0..7]` and panics (index out
of range, here `none`) when `b` holds fewer than eight bytes. -/
def Uint64 : Bytes → Option Nat
  | b0 :: b1 :: b2 :: b3 :: b4 :: b5 :: b6 :: b7 :: _ =>
    some (b7.toNat + b6.toNat * 2 ^ 8 + b5.toNat * 2 ^ 16 + b4.toNat * 2 ^ 24
      + b3.toNat * 2 ^ 32 + b2.toNat * 2 ^ 40 + b1.toNat * 2 ^ 48 + b0.toNat * 2 ^ 56)
  | _ => none

/-! ## The versioned key-value store -/

/-- A `versioned.Object`.  Its `Timestamp` field (always `time.Now()`) is never read by
the program and is left out. -/
structure Object where
  Version : Nat
  Data : Bytes
  deriving DecidableEq, Repr

/-- Contents of the key-value store: the records, most recently written first. -/
abbrev KV := List (String × Object)

/-- The lookup `s.Get(key)`; `none` stands for the error returned for an absent record. -/
def KV.Get (kv : KV) (key : String) : Option Object := kv.lookup key

/-- Store contents after a successful `s.Set(key, obj)`. -/
def KV.put (kv : KV) (key : String) (obj : Object) : KV :=
  (key, obj) :: kv.filter (fun p => p.1 != key)

/-- The admin-key area of the file system: existing directories and files. -/
structure FS where
  dirs : List String
  files : List (String × Bytes)
  deriving DecidableEq, Repr

/-- Everything mutable outside the manager. -/
structure World where
  kv : KV
  fs : FS
  rng : Nat
  log : List String
  deriving DecidableEq, Repr

/-- The privacy levels of `broadcast`. -/
inductive PrivacyLevel where
  | Public
  | Private
  | Secret
  deriving DecidableEq, Repr

/-- The external collaborators of the manager.  `Channel` is the type behind
`*broadcast.Channel` and `PrivateKey` the type behind `rsa.PrivateKey`. -/
structure Env (Channel PrivateKey : Type) where
  /-- `s.Set` fails: `some (e, kv1)` says that a write of the object under the key into
  the store returns the error `e` and leaves the store as `kv1`. -/
  setFault : KV → String → Object → Option (Err × KV)
  /-- `hash.CMixHash` of all the bytes written into it. -/
  CMixHash : Bytes → Bytes
  /-- `codename.GenerateChannelCodename`. -/
  GenerateChannelCodename : Bytes → String
  /-- `m.e2eClient.GetCmix().GetMaxMessageLength()`. -/
  GetMaxMessageLength : Nat
  /-- `broadcast.NewChannel(name, description, level, maxLen, stream)`: its result and the
  state of the randomness stream after the call. -/
  NewChannel : String → String → PrivacyLevel → Nat → Nat → Except Err (Channel × PrivateKey) × Nat
  /-- `(*broadcast.Channel).Marshal`, a method on a pointer that may be nil (`none`):
  the bytes and the error it returns. -/
  Marshal : Option Channel → Bytes × Option Err
  /-- `broadcast.UnmarshalChannel`. -/
  UnmarshalChannel : Bytes → Except Err Channel
  /-- `rsa.PrivateKey.MarshalPem`. -/
  MarshalPem : PrivateKey → Bytes
  /-- `path.Join` of two elements. -/
  pathJoin : String → String → String
  /-- Failures of `os.Mkdir` other than the directory existing already. -/
  mkdirFault : FS → String → Option Err
  /-- Failures of `utils.WriteFile`. -/
  writeFileFault : FS → String → Bytes → Option Err
  /-- The method `initCmix` of the manager, all of it calls into the cmix client: the
  world it leaves and the error it returns. -/
  initCmix : World → World × Option Err
  /-- `cryptoChannel.GenerateIdentity(rng.GetStream())` followed by `Marshal` of the
  identity, on the stream generator handed to `Init`. -/
  GenerateIdentity : Nat → Except Err Bytes
  /-- The error of `cryptoChannel.UnmarshalPrivateIdentity`. -/
  UnmarshalPrivateIdentity : Bytes → Option Err

/-- The `manager` struct: the two counters, the admin-key directory and the current
channel (a pointer, nil before initialisation). -/
structure manager (Channel : Type) where
  channelCount : Nat
  inCurrentChannel : Nat
  adminKeysDir : String
  currentChannelInfo : Option Channel
  deriving DecidableEq, Repr

/-- Both counters are values of type `uint64`. -/
def manager.wf {Channel : Type} (m : manager Channel) : Prop :=
  m.channelCount < uint64Size ∧ m.inCurrentChannel < uint64Size

instance {Channel : Type} (m : manager Channel) : Decidable m.wf := by
  unfold manager.wf; infer_instance

section Ops

variable {Channel PrivateKey : Type}

/-- The call `s.Set(key, obj)` on the store of the world. -/
def kvSet (env : Env Channel PrivateKey) (w : World) (key : String) (obj : Object) :
    World × Option Err :=
  match env.setFault w.kv key obj with
  | some (e, kv1) => ({ w with kv := kv1 }, some e)
  | none => ({ w with kv := w.kv.put key obj }, none)

/-- The method `saveCurrentPosition`: stores the `inCurrentChannel` value. -/
def saveCurrentPosition (env : Env Channel PrivateKey) (m : manager Channel) (w : World) :
    World × Option Err :=
  kvSet env w inCurrentChannelKey { Version := 0, Data := PutUint64 m.inCurrentChannel }

/-- The method `saveChannelCount`: stores the `channelCount` value. -/
def saveChannelCount (env : Env Channel PrivateKey) (m : manager Channel) (w : World) :
    World × Option Err :=
  kvSet env w channelCountKey { Version := 0, Data := PutUint64 m.channelCount }

/-- The method `saveCurrentChannel`: stores the marshalled current channel.  The error of
`Marshal` is ignored by the source and the bytes are stored as returned. -/
def saveCurrentChannel (env : Env Channel PrivateKey) (m : manager Channel) (w : World) :
    World × Option Err :=
  kvSet env w currentChannelKey { Version := 0, Data := (env.Marshal m.currentChannelInfo).1 }

/-- The call `os.Mkdir(dir, perm)`: fails when the directory exists. -/
def osMkdir (env : Env Channel PrivateKey) (fs : FS) (dir : String) : FS × Option Err :=
  if dir ∈ fs.dirs then (fs, some ("mkdir " ++ dir ++ ": file exists"))
  else match env.mkdirFault fs dir with
    | some e => (fs, some e)
    | none => ({ fs with dirs := dir :: fs.dirs }, none)

/-- The call `utils.WriteFile(file, data, perm, perm)`. -/
def WriteFile (env : Env Channel PrivateKey) (fs : FS) (file : String) (data : Bytes) :
    FS × Option Err :=
  match env.writeFileFault fs file data with
  | some e => (fs, some e)
  | none => ({ fs with files := (file, data) :: fs.files.filter (fun p => p.1 != file) }, none)

/-- The method `writeAdminToDisk`: writes admin info and channel definition to disk. -/
def writeAdminToDisk (env : Env Channel PrivateKey) (m : manager Channel) (w : World)
    (channelHash : String) (ch : Channel) (pk : PrivateKey) : World × Option Err :=
  let channelDir := env.pathJoin m.adminKeysDir channelHash
  match osMkdir env w.fs channelDir with
  | (fs, some err) =>
    ({ w with fs := fs }, some (WithMessage err "failed to make directory for channel"))
  | (fs, none) =>
    let adminKeyBytes := env.MarshalPem pk
    match env.Marshal (some ch) with
    | (_, some err) =>
      ({ w with fs := fs }, some (WithMessage err "failed to marshal channel info"))
    | (channelInfoBytes, none) =>
      let channelInfoFile := env.pathJoin channelDir "channelInfo.json"
      match WriteFile env fs channelInfoFile channelInfoBytes with
      | (fs, some err) =>
        ({ w with fs := fs },
          some (WithMessage err ("failed to write channel info to file " ++ channelInfoFile)))
      | (fs, none) =>
        let channelAdminFile := env.pathJoin channelDir "channelAdmin.key"
        match WriteFile env fs channelAdminFile adminKeyBytes with
        | (fs, some err) =>
          ({ w with fs := fs },
            some (WithMessage err
              ("failed to write channel admin keys to file " ++ channelAdminFile)))
        | (fs, none) => ({ w with fs := fs }, none)

/-- The local `newChannelCodename` of `generateNewChannel`: the codename of the hash of
the decimal `channelCount` followed by the salt. -/
def newChannelCodename (env : Env Channel PrivateKey) (m : manager Channel) : String :=
  env.GenerateChannelCodename
    (env.CMixHash (stringBytes (sprintfD m.channelCount) ++ stringBytes noobChannelSalt))

/-- The local `channelName` of `generateNewChannel`. -/
def channelName (env : Env Channel PrivateKey) (m : manager Channel) : String :=
  sprintfNoobChannelName (newChannelCodename env m)

/-- The method `generateNewChannel`: generates a new noob channel, swapping it for the
old one. -/
def generateNewChannel (env : Env Channel PrivateKey) (m : manager Channel) (w : World) :
    manager Channel × World × Option Err :=
  let w := { w with log := w.log ++ [channelName env m] }
  match env.NewChannel (channelName env m) noobChannelDescription PrivacyLevel.Public
      env.GetMaxMessageLength w.rng with
  | (Except.error err, rng) =>
    (m, { w with rng := rng }, some (WithMessage err "failed to generate new noob channel"))
  | (Except.ok (newChannel, privateKey), rng) =>
    let w := { w with rng := rng }
    let m := { m with currentChannelInfo := some newChannel }
    match saveCurrentChannel env m w with
    | (w, some err) => (m, w, some (WithMessage err "failed to save new channel info"))
    | (w, none) =>
      match writeAdminToDisk env m w (newChannelCodename env m) newChannel privateKey with
      | (w, some err) => (m, w, some (WithMessage err "failed to write admin info to disk"))
      | (w, none) => (m, w, none)

/-- The method `respondToHello`: responds to a message from a client, returning a noob
channel definition.  The result is the manager and world after the call and the pair
`([]byte, error)` returned. -/
def respondToHello (env : Env Channel PrivateKey) (m : manager Channel) (w : World) :
    manager Channel × World × Bytes × Option Err :=
  let m := { m with inCurrentChannel := inc64 m.inCurrentChannel }
  match saveCurrentPosition env m w with
  | (w, some err) =>
    ({ m with inCurrentChannel := dec64 m.inCurrentChannel }, w, [],
      some (WithMessage err "failed to save new position"))
  | (w, none) =>
    if m.inCurrentChannel > noobChannelCap then
      let m := { m with channelCount := inc64 m.channelCount }
      match saveChannelCount env m w with
      | (w, some err) =>
        ({ m with inCurrentChannel := dec64 m.inCurrentChannel,
                  channelCount := dec64 m.channelCount }, w, [],
          some (WithMessage err "failed to save channel count"))
      | (w, none) =>
        match generateNewChannel env m w with
        | (m, w, some err) =>
          ({ m with inCurrentChannel := dec64 m.inCurrentChannel,
                    channelCount := dec64 m.channelCount }, w, [],
            some (WithMessage err "Failed to generate new channel"))
        | (m, w, none) => (m, w, env.Marshal m.currentChannelInfo)
    else (m, w, env.Marshal m.currentChannelInfo)

/-- What a call of `Init` comes to: it returns `(m, nil)`, returns `(nil, err)`, or
panics. -/
inductive Outcome (α : Type) where
  | ok (a : α)
  | error (e : Err)
  | panic
  deriving DecidableEq, Repr

/-- The pattern `obj, err := s.Get(key); if err != nil { x = 0 } else
{ x = binary.BigEndian.Uint64(obj.Data) }` of `Init`; `none` is the panic of `Uint64`. -/
def loadUint64 (kv : KV) (key : String) : Option Nat :=
  match kv.Get key with
  | none => some 0
  | some obj => Uint64 obj.Data

/-- The load part of `Init` (from `s.Get(channelCountKey)` to the final return): reads the
two counters and the current channel from the store into `m`. -/
def InitLoad (env : Env Channel PrivateKey) (m : manager Channel) (w : World) :
    World × Outcome (manager Channel) :=
  match loadUint64 w.kv channelCountKey with
  | none => (w, Outcome.panic)
  | some cc =>
    let m := { m with channelCount := cc }
    match loadUint64 w.kv inCurrentChannelKey with
    | none => (w, Outcome.panic)
    | some ic =>
      let m := { m with inCurrentChannel := ic }
      match w.kv.Get currentChannelKey with
      | none =>
        match generateNewChannel env m w with
        | (_, w, some err) =>
          (w, Outcome.error (WithMessage err "failed to generate new channel"))
        | (m, w, none) => (w, Outcome.ok m)
      | some obj =>
        match env.UnmarshalChannel obj.Data with
        | Except.error err =>
          (w, Outcome.error (WithMessage err "failed to unmarshal current channel info"))
        | Except.ok ch => (w, Outcome.ok { m with currentChannelInfo := some ch })

/-- The function `Init`: sets up the cmix client, gets or creates the identity of the
channel manager, then loads the manager state.  `rng` is the stream generator argument. -/
def Init (env : Env Channel PrivateKey) (adminKeysDir : String) (rng : Nat) (w : World) :
    World × Outcome (manager Channel) :=
  let m : manager Channel :=
    { channelCount := 0, inCurrentChannel := 0, adminKeysDir := adminKeysDir,
      currentChannelInfo := none }
  match env.initCmix w with
  | (w, some err) => (w, Outcome.error (WithMessage err "failed to initialize cmix"))
  | (w, none) =>
    match w.kv.Get channelManagerIdentityKey with
    | none =>
      match env.GenerateIdentity rng with
      | Except.error err =>
        (w, Outcome.error
          (WithMessage err "failed to generate new channel identity for manager"))
      | Except.ok marshalledChannelIdentity =>
        match kvSet env w channelManagerIdentityKey
            { Version := 0, Data := marshalledChannelIdentity } with
        | (w, some err) =>
          (w, Outcome.error (WithMessage err "failed to save new channel manager identity"))
        | (w, none) => InitLoad env m w
    | some channelIdentityObj =>
      match env.UnmarshalPrivateIdentity channelIdentityObj.Data with
      | some err =>
        (w, Outcome.error
          (WithMessage err "failed to unmarshal stored channel manager identity"))
      | none => InitLoad env m w

/-- Consecutive calls of `respondToHello`, each returning without error: the state after
`n` of them, or `none` when one of them returns an error. -/
def respondToHelloTimes (env : Env Channel PrivateKey) :
    Nat → manager Channel → World → Option (manager Channel × World)
  | 0, m, w => some (m, w)
  | n + 1, m, w =>
    match respondToHello env m w with
    | (m1, w1, _, none) => respondToHelloTimes env n m1 w1
    | (_, _, _, some _) => none

/-- A failed store write leaves the store unchanged. -/
def FailedSetKeepsStore (env : Env Channel PrivateKey) : Prop :=
  ∀ kv key obj e kv1, env.setFault kv key obj = some (e, kv1) → kv1 = kv

/-- The in-memory counters are not ahead of the store: each is at most the value that the
store holds for it (the value that `Init` would load). -/
def NotAhead (m : manager Channel) (kv : KV) : Prop :=
  match loadUint64 kv inCurrentChannelKey, loadUint64 kv channelCountKey with
  | some ro, some rc => m.inCurrentChannel ≤ ro ∧ m.channelCount ≤ rc
  | _, _ => False

instance (m : manager Channel) (kv : KV) : Decidable (NotAhead m kv) := by
  unfold NotAhead; split <;> infer_instance

end Ops

/-! ## A concrete environment

Channels are their names, private keys are numbers; a store write fails exactly for the
keys listed in `failKeys`, leaving the store as it was. -/

/-- An environment in which every collaborator is a small computable function. -/
def sampleEnv (failKeys : List String) : Env String Nat where
  setFault kv key _ := if key ∈ failKeys then some ("disk full", kv) else none
  CMixHash b := b
  GenerateChannelCodename b := "code" ++ toString b.length
  GetMaxMessageLength := 1000
  NewChannel name _ _ _ rng :=
    if name = "" then (Except.error "empty name", rng) else (Except.ok (name, rng), rng + 1)
  Marshal
    | none => ([], some "nil channel")
    | some ch => (stringBytes ch, none)
  UnmarshalChannel b :=
    if b = [] then Except.error "no data"
    else Except.ok (String.mk (b.map (fun c => Char.ofNat c.toNat)))
  MarshalPem pk := [UInt8.ofNat pk]
  pathJoin a b := a ++ "/" ++ b
  mkdirFault _ _ := none
  writeFileFault _ _ _ := none
  initCmix w := (w, none)
  GenerateIdentity rng := Except.ok [UInt8.ofNat rng]
  UnmarshalPrivateIdentity b := if b = [] then some "no data" else none

/-- A world with an empty store and an empty admin-key area. -/
def emptyWorld : World := { kv := [], fs := { dirs := [], files := [] }, rng := 0, log := [] }

/-- A manager with the given counters, handing out the channel `first`. -/
def sampleManager (count position : Nat) : manager String :=
  { channelCount := count, inCurrentChannel := position, adminKeysDir := "keys",
    currentChannelInfo := some "first" }


/-! ## Arithmetic on `uint64` and the byte encoding -/

section Lemmas

variable {Channel PrivateKey : Type}

theorem inc64_lt (x : Nat) : inc64 x < uint64Size := by
  unfold inc64 uint64Size; omega

theorem dec64_inc64 {x : Nat} (h : x < uint64Size) : dec64 (inc64 x) = x := by
  unfold dec64 inc64 uint64Size at *; omega

theorem inc64_eq_succ {x : Nat} (h : x + 1 < uint64Size) : inc64 x = x + 1 := by
  unfold inc64 uint64Size at *; omega

theorem Uint64_PutUint64 {v : Nat} (h : v < uint64Size) : Uint64 (PutUint64 v) = some v := by
  have hb : ∀ n : Nat, (UInt8.ofNat n).toNat = n % 256 := fun _ => rfl
  simp only [PutUint64, Uint64, byteAt, uint64Size, hb] at *
  simp only [Option.some.injEq]
  omega

theorem Uint64_isSome_iff (b : Bytes) : (Uint64 b).isSome ↔ 8 ≤ b.length := by
  unfold Uint64
  split
  · simp
  · rename_i hne
    simp only [Option.isSome_none, Bool.false_eq_true, false_iff, not_le]
    match b, hne with
    | [], _ => simp
    | [_], _ => simp
    | [_, _], _ => simp
    | [_, _, _], _ => simp
    | [_, _, _, _], _ => simp
    | [_, _, _, _, _], _ => simp
    | [_, _, _, _, _, _], _ => simp
    | [_, _, _, _, _, _, _], _ => simp
    | b0 :: b1 :: b2 :: b3 :: b4 :: b5 :: b6 :: b7 :: t, hne =>
      exact absurd rfl (hne b0 b1 b2 b3 b4 b5 b6 b7 t)

/-! ## The store -/

theorem Get_put_same (kv : KV) (key : String) (obj : Object) :
    (kv.put key obj).Get key = some obj := by
  simp [KV.put, KV.Get, List.lookup]

theorem Get_put_other (kv : KV) {key key1 : String} (obj : Object) (h : key1 ≠ key) :
    (kv.put key obj).Get key1 = kv.Get key1 := by
  have hbeq : (key1 == key) = false := by simpa using h
  simp only [KV.put, KV.Get, List.lookup, hbeq]
  induction kv with
  | nil => rfl
  | cons p t ih =>
    obtain ⟨k, o⟩ := p
    by_cases hk : k = key
    · subst hk
      have h1 : (key1 == k) = false := hbeq
      simp [List.filter, List.lookup, h1, ih]
    · have h2 : (k != key) = true := by simpa using hk
      simp only [List.filter, h2, List.lookup]
      cases hkk : (key1 == k) with
      | true => rfl
      | false => exact ih

/-- The sample environment leaves the store unchanged when a write fails. -/
theorem sampleEnv_keeps (failKeys : List String) : FailedSetKeepsStore (sampleEnv failKeys) := by
  intro kv key obj e kv1 h
  simp only [sampleEnv] at h
  split at h
  · simp only [Option.some.injEq, Prod.mk.injEq] at h
    exact h.2.symm
  · simp at h

theorem kvSet_ok {env : Env Channel PrivateKey} {w w1 : World} {key : String} {obj : Object}
    (h : kvSet env w key obj = (w1, none)) : w1 = { w with kv := w.kv.put key obj } := by
  unfold kvSet at h
  split at h
  · simp at h
  · simp only [Prod.mk.injEq, and_true] at h
    exact h.symm

theorem kvSet_fail {env : Env Channel PrivateKey} (hkeep : FailedSetKeepsStore env)
    {w w1 : World} {key : String} {obj : Object} {e : Err}
    (h : kvSet env w key obj = (w1, some e)) : w1 = w := by
  unfold kvSet at h
  split at h
  · rename_i e1 kv1 hf
    simp only [Prod.mk.injEq, Option.some.injEq] at h
    rw [← h.1, hkeep _ _ _ _ _ hf]
  · simp at h

theorem kvSet_Get_other {env : Env Channel PrivateKey} (hkeep : FailedSetKeepsStore env)
    (w : World) {key key1 : String} (obj : Object) (hne : key1 ≠ key) :
    (kvSet env w key obj).1.kv.Get key1 = w.kv.Get key1 := by
  unfold kvSet
  split
  · rename_i e1 kv1 hf
    simp only
    rw [hkeep _ _ _ _ _ hf]
  · exact Get_put_other _ _ hne

theorem writeAdminToDisk_kv (env : Env Channel PrivateKey) (m : manager Channel) (w : World)
    (c : String) (ch : Channel) (pk : PrivateKey) :
    (writeAdminToDisk env m w c ch pk).1.kv = w.kv ∧
      (writeAdminToDisk env m w c ch pk).1.log = w.log := by
  unfold writeAdminToDisk
  simp only
  repeat' split
  all_goals exact ⟨rfl, rfl⟩

theorem kvSet_log (env : Env Channel PrivateKey) (w : World) (key : String) (obj : Object) :
    (kvSet env w key obj).1.log = w.log := by
  unfold kvSet
  split <;> rfl

/-- The counters and the admin-key directory are not touched by `generateNewChannel`. -/
theorem generateNewChannel_counters (env : Env Channel PrivateKey) (m : manager Channel)
    (w : World) :
    (generateNewChannel env m w).1.channelCount = m.channelCount ∧
      (generateNewChannel env m w).1.inCurrentChannel = m.inCurrentChannel ∧
      (generateNewChannel env m w).1.adminKeysDir = m.adminKeysDir := by
  unfold generateNewChannel
  simp only
  repeat' split
  all_goals exact ⟨rfl, rfl, rfl⟩

theorem generateNewChannel_Get_other {env : Env Channel PrivateKey}
    (hkeep : FailedSetKeepsStore env) (m : manager Channel) (w : World) {key : String}
    (hne : key ≠ currentChannelKey) :
    (generateNewChannel env m w).2.1.kv.Get key = w.kv.Get key := by
  unfold generateNewChannel
  simp only
  split
  · rfl
  · rename_i newChannel privateKey rng hnew
    split
    · rename_i w1 err hs
      have := kvSet_Get_other hkeep { w with log := w.log ++ [channelName env m], rng := rng }
        { Version := 0, Data := (env.Marshal (some newChannel)).1 } hne
      unfold saveCurrentChannel at hs
      simp only at hs
      rw [hs] at this
      exact this
    · rename_i w1 hs
      have := kvSet_Get_other hkeep { w with log := w.log ++ [channelName env m], rng := rng }
        { Version := 0, Data := (env.Marshal (some newChannel)).1 } hne
      unfold saveCurrentChannel at hs
      simp only at hs
      rw [hs] at this
      split
      · rename_i w2 err hw
        have hk := (writeAdminToDisk_kv env { m with currentChannelInfo := some newChannel }
          w1 (newChannelCodename env { m with currentChannelInfo := some newChannel })
          newChannel privateKey).1
        rw [hw] at hk
        simp only at hk ⊢
        rw [hk]; exact this
      · rename_i w2 hw
        have hk := (writeAdminToDisk_kv env { m with currentChannelInfo := some newChannel }
          w1 (newChannelCodename env { m with currentChannelInfo := some newChannel })
          newChannel privateKey).1
        rw [hw] at hk
        simp only at hk ⊢
        rw [hk]; exact this

/-! ## Failure of the occupancy write -/

/-- C1: when the store write of the incremented occupancy (`saveCurrentPosition`) fails,
`respondToHello` returns an error and no channel bytes, and the manager after the call is
the manager before it: `inCurrentChannel`, `channelCount` and `currentChannelInfo` all
have their pre-call values. -/
theorem respondToHello_position_write_fails (env : Env Channel PrivateKey)
    (m : manager Channel) (w w1 : World) (e : Err) (hwf : m.wf)
    (hfail : saveCurrentPosition env { m with inCurrentChannel := inc64 m.inCurrentChannel } w
      = (w1, some e)) :
    respondToHello env m w = (m, w1, [], some (WithMessage e "failed to save new position")) := by
  unfold respondToHello
  simp only [hfail, dec64_inc64 hwf.2]

/-- Witness of C1: the occupancy write fails in the sample environment. -/
theorem respondToHello_position_write_fails_witness :
    respondToHello (sampleEnv [inCurrentChannelKey]) (sampleManager 0 7) emptyWorld
      = (sampleManager 0 7, emptyWorld, [],
          some (WithMessage "disk full" "failed to save new position")) :=
  respondToHello_position_write_fails (sampleEnv [inCurrentChannelKey]) (sampleManager 0 7)
    emptyWorld emptyWorld "disk full" (by decide) (by decide)

/-! ## Successful calls -/

/-- A successful `generateNewChannel` installs the channel that `broadcast.NewChannel`
returned for `channelName` and changes nothing else in the manager. -/
theorem generateNewChannel_ok {env : Env Channel PrivateKey} {m m1 : manager Channel}
    {w w1 : World} (h : generateNewChannel env m w = (m1, w1, none)) :
    ∃ ch pk rng,
      env.NewChannel (channelName env m) noobChannelDescription PrivacyLevel.Public
        env.GetMaxMessageLength w.rng = (Except.ok (ch, pk), rng) ∧
      m1 = { m with currentChannelInfo := some ch } := by
  unfold generateNewChannel at h
  simp only at h
  split at h
  · simp at h
  · rename_i newChannel privateKey rng hnew
    refine ⟨newChannel, privateKey, rng, hnew, ?_⟩
    split at h
    · simp at h
    · split at h
      · simp at h
      · simp only [Prod.mk.injEq, and_true] at h
        exact h.1.symm

/-- What a call of `respondToHello` that returns no error has done to the manager. -/
theorem respondToHello_ok {env : Env Channel PrivateKey} {m m1 : manager Channel}
    {w w1 : World} {bytes : Bytes}
    (h : respondToHello env m w = (m1, w1, bytes, none)) :
    m1.inCurrentChannel = inc64 m.inCurrentChannel ∧ m1.adminKeysDir = m.adminKeysDir ∧
    ((inc64 m.inCurrentChannel ≤ noobChannelCap ∧ m1.channelCount = m.channelCount ∧
        m1.currentChannelInfo = m.currentChannelInfo ∧
        env.Marshal m.currentChannelInfo = (bytes, none)) ∨
      (inc64 m.inCurrentChannel > noobChannelCap ∧ m1.channelCount = inc64 m.channelCount ∧
        ∃ ch pk rng,
          env.NewChannel (channelName env { m with channelCount := inc64 m.channelCount })
            noobChannelDescription PrivacyLevel.Public env.GetMaxMessageLength w.rng
            = (Except.ok (ch, pk), rng) ∧
          m1.currentChannelInfo = some ch ∧ env.Marshal (some ch) = (bytes, none))) := by
  unfold respondToHello at h
  simp only at h
  split at h
  · simp at h
  · rename_i wa hpos
    have hwa := kvSet_ok hpos
    split at h
    · rename_i hcap
      split at h
      · simp at h
      · rename_i wb hcount
        have hwb := kvSet_ok hcount
        split at h
        · simp at h
        · rename_i m2 wc hgen
          obtain ⟨ch, pk, rng, hnew, hm2⟩ := generateNewChannel_ok hgen
          simp only [Prod.mk.injEq] at h
          obtain ⟨hm, -, hby⟩ := h
          subst hm
          subst hm2
          refine ⟨rfl, rfl, Or.inr ⟨hcap, rfl, ch, pk, rng, ?_, rfl, ?_⟩⟩
          · rw [hwb, hwa] at hnew
            exact hnew
          · exact hby
    · rename_i hcap
      simp only [Prod.mk.injEq] at h
      obtain ⟨hm, -, hby⟩ := h
      subst hm
      exact ⟨rfl, rfl, Or.inl ⟨Nat.le_of_not_lt hcap, rfl, rfl, hby⟩⟩

/-- While the occupancy stays within the cap, successful calls only count. -/
theorem respondToHelloTimes_within_cap (env : Env Channel PrivateKey) (n : Nat) :
    ∀ (m mn : manager Channel) (w wn : World),
      respondToHelloTimes env n m w = some (mn, wn) →
      m.inCurrentChannel + n ≤ noobChannelCap →
      mn.inCurrentChannel = m.inCurrentChannel + n ∧ mn.channelCount = m.channelCount ∧
        mn.currentChannelInfo = m.currentChannelInfo := by
  induction n with
  | zero =>
    intro m mn w wn h _
    simp only [respondToHelloTimes, Option.some.injEq, Prod.mk.injEq] at h
    rw [← h.1]
    exact ⟨rfl, rfl, rfl⟩
  | succ k ih =>
    intro m mn w wn h hle
    unfold respondToHelloTimes at h
    split at h
    · rename_i ma wa ba hcall
      have hinc : inc64 m.inCurrentChannel = m.inCurrentChannel + 1 := by
        apply inc64_eq_succ
        unfold noobChannelCap at hle
        unfold uint64Size
        omega
      obtain ⟨ho, -, hcase⟩ := respondToHello_ok hcall
      rw [hinc] at ho hcase
      have hstep : ma.channelCount = m.channelCount ∧
          ma.currentChannelInfo = m.currentChannelInfo := by
        rcases hcase with ⟨_, hc, hi, _⟩ | ⟨hgt, _⟩
        · exact ⟨hc, hi⟩
        · omega
      obtain ⟨h1, h2, h3⟩ := ih ma mn wa wn h (by omega)
      exact ⟨by omega, h2.trans hstep.1, h3.trans hstep.2⟩
    · simp at h

/-- C2: rotation is triggered strictly when the incremented occupancy exceeds the cap of
100.  A call of `respondToHello` in which every step succeeds (here made after `n` earlier
successful calls, `n = 0` giving an arbitrary state) leaves `channelCount` and
`currentChannelInfo` unchanged when the incremented occupancy is at most 100; when it
exceeds 100 the call increments `channelCount` by one, replaces `currentChannelInfo` by
the channel newly generated for that count and returns its serialization.  From a fresh
state (occupancy 0, count 0) the first 100 calls keep `currentChannelInfo` and end with
occupancy 100, and the 101st call sets `channelCount` to 1 and returns the serialization of
the new channel. -/
theorem respondToHello_rotation_trigger (env : Env Channel PrivateKey)
    (m mn : manager Channel) (w wn : World) (n : Nat)
    (hrun : respondToHelloTimes env n m w = some (mn, wn)) :
    (∀ (m1 : manager Channel) (w1 : World) (bytes : Bytes),
      respondToHello env mn wn = (m1, w1, bytes, none) →
      (inc64 mn.inCurrentChannel ≤ noobChannelCap →
        m1.channelCount = mn.channelCount ∧ m1.currentChannelInfo = mn.currentChannelInfo) ∧
      (inc64 mn.inCurrentChannel > noobChannelCap →
        m1.channelCount = inc64 mn.channelCount ∧
        ∃ ch pk rng,
          env.NewChannel (channelName env { mn with channelCount := inc64 mn.channelCount })
            noobChannelDescription PrivacyLevel.Public env.GetMaxMessageLength wn.rng
            = (Except.ok (ch, pk), rng) ∧
          m1.currentChannelInfo = some ch ∧ env.Marshal (some ch) = (bytes, none))) ∧
    (m.inCurrentChannel = 0 → m.channelCount = 0 → n ≤ 100 →
      mn.inCurrentChannel = n ∧ mn.channelCount = 0 ∧
        mn.currentChannelInfo = m.currentChannelInfo) ∧
    (m.inCurrentChannel = 0 → m.channelCount = 0 → n = 100 →
      ∀ (m1 : manager Channel) (w1 : World) (bytes : Bytes),
        respondToHello env mn wn = (m1, w1, bytes, none) →
        m1.inCurrentChannel = 101 ∧ m1.channelCount = 1 ∧
        ∃ ch pk rng,
          env.NewChannel (channelName env { mn with channelCount := 1 })
            noobChannelDescription PrivacyLevel.Public env.GetMaxMessageLength wn.rng
            = (Except.ok (ch, pk), rng) ∧
          m1.currentChannelInfo = some ch ∧ env.Marshal (some ch) = (bytes, none)) := by
  refine ⟨?_, ?_, ?_⟩
  · intro m1 w1 bytes hcall
    obtain ⟨-, -, hcase⟩ := respondToHello_ok hcall
    constructor
    · intro hle
      rcases hcase with ⟨_, hc, hi, _⟩ | ⟨hgt, _⟩
      · exact ⟨hc, hi⟩
      · omega
    · intro hgt
      rcases hcase with ⟨hle, _⟩ | ⟨_, hc, hex⟩
      · omega
      · exact ⟨hc, hex⟩
  · intro ho hc hn
    have := respondToHelloTimes_within_cap env n m mn w wn hrun
      (by unfold noobChannelCap; omega)
    rw [ho, hc] at this
    simpa using this
  · intro ho hc hn m1 w1 bytes hcall
    subst hn
    have hpre := respondToHelloTimes_within_cap env 100 m mn w wn hrun
      (by unfold noobChannelCap; omega)
    rw [ho, hc] at hpre
    obtain ⟨h1, h2, -⟩ := hpre
    obtain ⟨hinc, -, hcase⟩ := respondToHello_ok hcall
    have e1 : inc64 mn.inCurrentChannel = 101 := by rw [h1]; decide
    have e2 : inc64 mn.channelCount = 1 := by rw [h2]; decide
    rw [e1] at hinc hcase
    rw [e2] at hcase
    rcases hcase with ⟨hle, _⟩ | ⟨_, hc1, hex⟩
    · unfold noobChannelCap at hle; omega
    · exact ⟨hinc, hc1, hex⟩

/-- Witness of C2: in the sample environment one hundred calls from the fresh state
succeed and the next one rotates. -/
theorem respondToHello_rotation_trigger_witness :
    respondToHelloTimes (sampleEnv []) 100 (sampleManager 0 0) emptyWorld
      = some (sampleManager 0 100,
          { emptyWorld with
            kv := [(inCurrentChannelKey, { Version := 0, Data := PutUint64 100 })] }) ∧
    respondToHello (sampleEnv []) (sampleManager 0 100)
      { emptyWorld with
        kv := [(inCurrentChannelKey, { Version := 0, Data := PutUint64 100 })] }
      = ({ sampleManager 1 101 with currentChannelInfo := some "NC_code36" },
          { kv := [(currentChannelKey, { Version := 0, Data := stringBytes "NC_code36" }),
                   (channelCountKey, { Version := 0, Data := PutUint64 1 }),
                   (inCurrentChannelKey, { Version := 0, Data := PutUint64 101 })],
            fs := { dirs := ["keys/code36"],
                    files := [("keys/code36/channelAdmin.key", [0]),
                              ("keys/code36/channelInfo.json", stringBytes "NC_code36")] },
            rng := 1, log := ["NC_code36"] },
          stringBytes "NC_code36", none) ∧
    (sampleManager 0 100).currentChannelInfo = (sampleManager 0 0).currentChannelInfo ∧
    (101 = 101 ∧ 1 = 1 ∧
      ∃ ch pk rng,
        (sampleEnv []).NewChannel
            (channelName (sampleEnv []) { sampleManager 0 100 with channelCount := 1 })
            noobChannelDescription PrivacyLevel.Public (sampleEnv []).GetMaxMessageLength 0
          = (Except.ok (ch, pk), rng) ∧
        some "NC_code36" = some ch ∧
        (sampleEnv []).Marshal (some ch) = (stringBytes "NC_code36", none)) :=
  have hrun : respondToHelloTimes (sampleEnv []) 100 (sampleManager 0 0) emptyWorld
      = some (sampleManager 0 100,
          { emptyWorld with
            kv := [(inCurrentChannelKey, { Version := 0, Data := PutUint64 100 })] }) := by
    decide
  have hcall : respondToHello (sampleEnv []) (sampleManager 0 100)
      { emptyWorld with
        kv := [(inCurrentChannelKey, { Version := 0, Data := PutUint64 100 })] }
      = ({ sampleManager 1 101 with currentChannelInfo := some "NC_code36" },
          { kv := [(currentChannelKey, { Version := 0, Data := stringBytes "NC_code36" }),
                   (channelCountKey, { Version := 0, Data := PutUint64 1 }),
                   (inCurrentChannelKey, { Version := 0, Data := PutUint64 101 })],
            fs := { dirs := ["keys/code36"],
                    files := [("keys/code36/channelAdmin.key", [0]),
                              ("keys/code36/channelInfo.json", stringBytes "NC_code36")] },
            rng := 1, log := ["NC_code36"] },
          stringBytes "NC_code36", none) := by
    decide
  have hall := respondToHello_rotation_trigger (sampleEnv []) (sampleManager 0 0)
    (sampleManager 0 100) emptyWorld _ 100 hrun
  ⟨hrun, hcall, (hall.2.1 rfl rfl (Nat.le_refl 100)).2.2,
    hall.2.2 rfl rfl rfl _ _ _ hcall⟩

/-! ## Failure inside the rotation -/

/-- The result of `respondToHello` when the write of the incremented `channelCount`
fails. -/
theorem respondToHello_count_write_fails {env : Env Channel PrivateKey}
    {m : manager Channel} {w w1 w2 : World} {e : Err} (hwf : m.wf)
    (hpos : saveCurrentPosition env { m with inCurrentChannel := inc64 m.inCurrentChannel } w
      = (w1, none))
    (hcap : inc64 m.inCurrentChannel > noobChannelCap)
    (hcount : saveChannelCount env
      { m with inCurrentChannel := inc64 m.inCurrentChannel,
               channelCount := inc64 m.channelCount } w1 = (w2, some e)) :
    respondToHello env m w
      = (m, w2, [], some (WithMessage e "failed to save channel count")) := by
  unfold respondToHello
  simp only [hpos, hcap, if_true, hcount, dec64_inc64 hwf.1, dec64_inc64 hwf.2]

/-- The result of `respondToHello` when `generateNewChannel` fails. -/
theorem respondToHello_generate_fails {env : Env Channel PrivateKey}
    {m m3 : manager Channel} {w w1 w2 w3 : World} {e : Err} (hwf : m.wf)
    (hpos : saveCurrentPosition env { m with inCurrentChannel := inc64 m.inCurrentChannel } w
      = (w1, none))
    (hcap : inc64 m.inCurrentChannel > noobChannelCap)
    (hcount : saveChannelCount env
      { m with inCurrentChannel := inc64 m.inCurrentChannel,
               channelCount := inc64 m.channelCount } w1 = (w2, none))
    (hgen : generateNewChannel env
      { m with inCurrentChannel := inc64 m.inCurrentChannel,
               channelCount := inc64 m.channelCount } w2 = (m3, w3, some e)) :
    respondToHello env m w
      = ({ m3 with inCurrentChannel := m.inCurrentChannel, channelCount := m.channelCount },
          w3, [], some (WithMessage e "Failed to generate new channel")) := by
  have hc := generateNewChannel_counters env
    { m with inCurrentChannel := inc64 m.inCurrentChannel,
             channelCount := inc64 m.channelCount } w2
  rw [hgen] at hc
  simp only at hc
  unfold respondToHello
  simp only [hpos, hcap, if_true, hcount, hgen, hc.1, hc.2.1, dec64_inc64 hwf.1,
    dec64_inc64 hwf.2]

/-- C3: when the incremented occupancy exceeds 100 and the occupancy write succeeds, a
failure of the `channelCount` write (`saveChannelCount`) or of the channel generation
(`generateNewChannel`) makes `respondToHello` return an error with no channel bytes, and
both in-memory counters are reverted: `inCurrentChannel` and `channelCount` equal their
pre-call values. -/
theorem respondToHello_rotation_failure_reverts (env : Env Channel PrivateKey)
    (m m3 : manager Channel) (w w1 w2 w3 : World) (e : Err) (hwf : m.wf)
    (hpos : saveCurrentPosition env { m with inCurrentChannel := inc64 m.inCurrentChannel } w
      = (w1, none))
    (hcap : inc64 m.inCurrentChannel > noobChannelCap)
    (hfail :
      saveChannelCount env
        { m with inCurrentChannel := inc64 m.inCurrentChannel,
                 channelCount := inc64 m.channelCount } w1 = (w2, some e) ∨
      (saveChannelCount env
        { m with inCurrentChannel := inc64 m.inCurrentChannel,
                 channelCount := inc64 m.channelCount } w1 = (w2, none) ∧
       generateNewChannel env
        { m with inCurrentChannel := inc64 m.inCurrentChannel,
                 channelCount := inc64 m.channelCount } w2 = (m3, w3, some e))) :
    ∃ (m1 : manager Channel) (wf : World) (err : Err),
      respondToHello env m w = (m1, wf, [], some err) ∧
      m1.inCurrentChannel = m.inCurrentChannel ∧ m1.channelCount = m.channelCount := by
  rcases hfail with hcount | ⟨hcount, hgen⟩
  · exact ⟨m, w2, _, respondToHello_count_write_fails hwf hpos hcap hcount, rfl, rfl⟩
  · exact ⟨_, w3, _, respondToHello_generate_fails hwf hpos hcap hcount hgen, rfl, rfl⟩

/-- Witness of C3: in the sample environment the `channelCount` write fails for the
101st joiner. -/
theorem respondToHello_rotation_failure_reverts_witness :
    ∃ (m1 : manager String) (wf : World) (err : Err),
      respondToHello (sampleEnv [channelCountKey]) (sampleManager 3 100) emptyWorld
        = (m1, wf, [], some err) ∧
      m1.inCurrentChannel = 100 ∧ m1.channelCount = 3 :=
  respondToHello_rotation_failure_reverts (sampleEnv [channelCountKey]) (sampleManager 3 100)
    (sampleManager 3 100) emptyWorld
    { emptyWorld with kv := [(inCurrentChannelKey, { Version := 0, Data := PutUint64 101 })] }
    { emptyWorld with kv := [(inCurrentChannelKey, { Version := 0, Data := PutUint64 101 })] }
    emptyWorld "disk full" (by decide) (by decide) (by decide) (Or.inl (by decide))

/-- C4 (evaluation of the code): the 101st joiner arrives while the admin-key directory of
the next codename exists already.  `generateNewChannel` installs and stores the new
channel and then fails in `writeAdminToDisk`; `respondToHello` returns the error with both
counters reverted, but `currentChannelInfo` holds the new channel and the store holds its
`currentChannel` record.  When instead the store write of the new channel fails, the
in-memory `currentChannelInfo` has been replaced all the same. -/
theorem respondToHello_failed_rotation_keeps_new_channel :
    respondToHello (sampleEnv []) (sampleManager 0 100)
        { emptyWorld with fs := { dirs := ["keys/code36"], files := [] } }
      = ({ sampleManager 0 100 with currentChannelInfo := some "NC_code36" },
          { kv := [(currentChannelKey, { Version := 0, Data := stringBytes "NC_code36" }),
                   (channelCountKey, { Version := 0, Data := PutUint64 1 }),
                   (inCurrentChannelKey, { Version := 0, Data := PutUint64 101 })],
            fs := { dirs := ["keys/code36"], files := [] },
            rng := 1, log := ["NC_code36"] },
          [],
          some (WithMessage (WithMessage (WithMessage "mkdir keys/code36: file exists"
            "failed to make directory for channel") "failed to write admin info to disk")
            "Failed to generate new channel")) ∧
    (sampleManager 0 100).currentChannelInfo = some "first" ∧
    KV.Get emptyWorld.kv currentChannelKey = none ∧
    (respondToHello (sampleEnv [currentChannelKey]) (sampleManager 0 100) emptyWorld).1
      = { sampleManager 0 100 with currentChannelInfo := some "NC_code36" } ∧
    (respondToHello (sampleEnv [currentChannelKey]) (sampleManager 0 100) emptyWorld).2.2.2
      = some (WithMessage (WithMessage "disk full" "failed to save new channel info")
          "Failed to generate new channel") := by
  decide

/-- C5 (counterexample): the `channelCount` write fails for the 101st joiner after the
occupancy 101 has been stored; the call returns an error and the in-memory occupancy is
100 again, not the incremented value 101. -/
theorem respondToHello_occupancy_not_kept_after_failure :
    (respondToHello (sampleEnv [channelCountKey]) (sampleManager 3 100) emptyWorld).2.2
        = ([], some (WithMessage "disk full" "failed to save channel count")) ∧
    loadUint64 (respondToHello (sampleEnv [channelCountKey]) (sampleManager 3 100)
        emptyWorld).2.1.kv inCurrentChannelKey = some 101 ∧
    ¬ ((respondToHello (sampleEnv [channelCountKey]) (sampleManager 3 100)
        emptyWorld).1.inCurrentChannel = (sampleManager 3 100).inCurrentChannel + 1) := by
  decide

theorem inCurrentChannelKey_ne_channelCountKey : inCurrentChannelKey ≠ channelCountKey := by
  decide

theorem inCurrentChannelKey_ne_currentChannelKey : inCurrentChannelKey ≠ currentChannelKey := by
  decide

theorem channelCountKey_ne_currentChannelKey : channelCountKey ≠ currentChannelKey := by
  decide

theorem loadUint64_put_same (kv : KV) (key : String) {v : Nat} (h : v < uint64Size) :
    loadUint64 (kv.put key { Version := 0, Data := PutUint64 v }) key = some v := by
  unfold loadUint64
  rw [Get_put_same]
  exact Uint64_PutUint64 h

theorem loadUint64_congr {kv kv1 : KV} {key : String} (h : kv1.Get key = kv.Get key) :
    loadUint64 kv1 key = loadUint64 kv key := by
  unfold loadUint64
  rw [h]

/-- C5 (amended): when the `channelCount` write or the channel generation fails after the
incremented occupancy was persisted, and failed store writes leave the store unchanged,
`respondToHello` returns its error with the in-memory `inCurrentChannel` back at its
pre-call value, while the stored `inCurrentChannel` record holds the pre-call value plus
one. -/
theorem respondToHello_occupancy_reverted_record_kept (env : Env Channel PrivateKey)
    (m m3 : manager Channel) (w w1 w2 w3 : World) (e : Err) (hwf : m.wf)
    (hkeep : FailedSetKeepsStore env)
    (hpos : saveCurrentPosition env { m with inCurrentChannel := inc64 m.inCurrentChannel } w
      = (w1, none))
    (hcap : inc64 m.inCurrentChannel > noobChannelCap)
    (hfail :
      saveChannelCount env
        { m with inCurrentChannel := inc64 m.inCurrentChannel,
                 channelCount := inc64 m.channelCount } w1 = (w2, some e) ∨
      (saveChannelCount env
        { m with inCurrentChannel := inc64 m.inCurrentChannel,
                 channelCount := inc64 m.channelCount } w1 = (w2, none) ∧
       generateNewChannel env
        { m with inCurrentChannel := inc64 m.inCurrentChannel,
                 channelCount := inc64 m.channelCount } w2 = (m3, w3, some e))) :
    (respondToHello env m w).1.inCurrentChannel = m.inCurrentChannel ∧
    (respondToHello env m w).2.2.1 = [] ∧
    (respondToHello env m w).2.2.2.isSome = true ∧
    loadUint64 (respondToHello env m w).2.1.kv inCurrentChannelKey
      = some (m.inCurrentChannel + 1) := by
  have hinc : inc64 m.inCurrentChannel = m.inCurrentChannel + 1 := by
    have h2 := hwf.2
    unfold inc64 uint64Size noobChannelCap at *
    omega
  have hw1 := kvSet_ok hpos
  have hrec1 : loadUint64 w1.kv inCurrentChannelKey = some (m.inCurrentChannel + 1) := by
    rw [hw1, ← hinc]
    exact loadUint64_put_same _ _ (inc64_lt _)
  rcases hfail with hcount | ⟨hcount, hgen⟩
  · rw [respondToHello_count_write_fails hwf hpos hcap hcount]
    have hw2 : w2 = w1 := kvSet_fail hkeep hcount
    rw [hw2]
    exact ⟨rfl, rfl, rfl, hrec1⟩
  · rw [respondToHello_generate_fails hwf hpos hcap hcount hgen]
    refine ⟨rfl, rfl, rfl, ?_⟩
    have hg := generateNewChannel_Get_other hkeep
      { m with inCurrentChannel := inc64 m.inCurrentChannel,
               channelCount := inc64 m.channelCount } w2
      inCurrentChannelKey_ne_currentChannelKey
    rw [hgen] at hg
    have hw2 := kvSet_ok hcount
    have h2 : w2.kv.Get inCurrentChannelKey = w1.kv.Get inCurrentChannelKey := by
      rw [hw2]
      exact Get_put_other _ _ inCurrentChannelKey_ne_channelCountKey
    rw [← hrec1]
    exact loadUint64_congr (hg.trans h2)

/-- Witness of C5 (amended): the directory of the next codename exists, so the channel
generation fails after both counter writes succeeded. -/
theorem respondToHello_occupancy_reverted_record_kept_witness :
    (respondToHello (sampleEnv []) (sampleManager 0 100)
        { emptyWorld with fs := { dirs := ["keys/code36"], files := [] } }).1.inCurrentChannel
      = 100 ∧
    (respondToHello (sampleEnv []) (sampleManager 0 100)
        { emptyWorld with fs := { dirs := ["keys/code36"], files := [] } }).2.2.1 = [] ∧
    (respondToHello (sampleEnv []) (sampleManager 0 100)
        { emptyWorld with fs := { dirs := ["keys/code36"], files := [] } }).2.2.2.isSome
      = true ∧
    loadUint64 (respondToHello (sampleEnv []) (sampleManager 0 100)
        { emptyWorld with fs := { dirs := ["keys/code36"], files := [] } }).2.1.kv
      inCurrentChannelKey = some (100 + 1) :=
  respondToHello_occupancy_reverted_record_kept (sampleEnv []) (sampleManager 0 100)
    { sampleManager 1 101 with currentChannelInfo := some "NC_code36" }
    { emptyWorld with fs := { dirs := ["keys/code36"], files := [] } }
    { kv := [(inCurrentChannelKey, { Version := 0, Data := PutUint64 101 })],
      fs := { dirs := ["keys/code36"], files := [] }, rng := 0, log := [] }
    { kv := [(channelCountKey, { Version := 0, Data := PutUint64 1 }),
             (inCurrentChannelKey, { Version := 0, Data := PutUint64 101 })],
      fs := { dirs := ["keys/code36"], files := [] }, rng := 0, log := [] }
    { kv := [(currentChannelKey, { Version := 0, Data := stringBytes "NC_code36" }),
             (channelCountKey, { Version := 0, Data := PutUint64 1 }),
             (inCurrentChannelKey, { Version := 0, Data := PutUint64 101 })],
      fs := { dirs := ["keys/code36"], files := [] }, rng := 1, log := ["NC_code36"] }
    (WithMessage (WithMessage "mkdir keys/code36: file exists"
      "failed to make directory for channel") "failed to write admin info to disk")
    (by decide)
    (sampleEnv_keeps [])
    (by decide) (by decide) (Or.inr ⟨by decide, by decide⟩)

/-! ## Monotonicity of the counters -/

/-- As long as the counters cannot pass the largest `uint64`, successful calls add one to
the occupancy each and never lower the channel count. -/
theorem respondToHelloTimes_counters (env : Env Channel PrivateKey) (n : Nat) :
    ∀ (m mn : manager Channel) (w wn : World),
      respondToHelloTimes env n m w = some (mn, wn) →
      m.inCurrentChannel + n < uint64Size → m.channelCount + n < uint64Size →
      mn.inCurrentChannel = m.inCurrentChannel + n ∧ m.channelCount ≤ mn.channelCount ∧
        mn.channelCount ≤ m.channelCount + n := by
  induction n with
  | zero =>
    intro m mn w wn h _ _
    simp only [respondToHelloTimes, Option.some.injEq, Prod.mk.injEq] at h
    rw [← h.1]
    exact ⟨rfl, Nat.le_refl _, Nat.le_refl _⟩
  | succ k ih =>
    intro m mn w wn h ho hc
    unfold respondToHelloTimes at h
    split at h
    · rename_i ma wa ba hcall
      obtain ⟨hinc, -, hcase⟩ := respondToHello_ok hcall
      rw [inc64_eq_succ (by omega)] at hinc
      have hcnt : m.channelCount ≤ ma.channelCount ∧ ma.channelCount ≤ m.channelCount + 1 := by
        rcases hcase with ⟨_, hsame, _⟩ | ⟨_, hnew, _⟩
        · omega
        · rw [inc64_eq_succ (by omega)] at hnew
          omega
      obtain ⟨h1, h2, h3⟩ := ih ma mn wa wn h (by omega) (by omega)
      exact ⟨by omega, by omega, by omega⟩
    · simp at h

/-- C6 (counterexample): `uint64` addition wraps.  From the occupancy `2^64 - 1` a
successful call leaves the occupancy 0, and from the channel count `2^64 - 1` a successful
rotation leaves the count 0: each counter is then smaller than before the call. -/
theorem respondToHello_counters_wrap :
    (sampleManager 0 18446744073709551615).wf ∧
    (respondToHello (sampleEnv []) (sampleManager 0 18446744073709551615) emptyWorld).2.2.2
      = none ∧
    ¬ ((sampleManager 0 18446744073709551615).inCurrentChannel
        ≤ (respondToHello (sampleEnv []) (sampleManager 0 18446744073709551615)
            emptyWorld).1.inCurrentChannel) ∧
    (sampleManager 18446744073709551615 100).wf ∧
    (respondToHello (sampleEnv []) (sampleManager 18446744073709551615 100) emptyWorld).2.2.2
      = none ∧
    ¬ ((sampleManager 18446744073709551615 100).channelCount
        ≤ (respondToHello (sampleEnv []) (sampleManager 18446744073709551615 100)
            emptyWorld).1.channelCount) := by
  decide

/-- C6 (amended): for every initial state and every sequence of successful
`respondToHello` calls that cannot carry a counter past the largest `uint64` (initial value
plus number of calls is below `2^64`), `inCurrentChannel` and `channelCount` after each
call are at least their values before that call, and at least their initial values. -/
theorem respondToHello_counters_monotone (env : Env Channel PrivateKey)
    (m mk m1 : manager Channel) (w wk w1 : World) (k : Nat) (bytes : Bytes)
    (hrun : respondToHelloTimes env k m w = some (mk, wk))
    (hcall : respondToHello env mk wk = (m1, w1, bytes, none))
    (ho : m.inCurrentChannel + k + 1 < uint64Size)
    (hc : m.channelCount + k + 1 < uint64Size) :
    mk.inCurrentChannel ≤ m1.inCurrentChannel ∧ mk.channelCount ≤ m1.channelCount ∧
      m.inCurrentChannel ≤ mk.inCurrentChannel ∧ m.channelCount ≤ mk.channelCount := by
  obtain ⟨h1, h2, h3⟩ := respondToHelloTimes_counters env k m mk w wk hrun (by omega) (by omega)
  obtain ⟨hinc, -, hcase⟩ := respondToHello_ok hcall
  rw [inc64_eq_succ (by omega)] at hinc
  refine ⟨by omega, ?_, by omega, h2⟩
  rcases hcase with ⟨_, hsame, _⟩ | ⟨_, hnew, _⟩
  · omega
  · rw [inc64_eq_succ (by omega)] at hnew
    omega

/-- Witness of C6 (amended): the call after the first hundred joiners, which rotates. -/
theorem respondToHello_counters_monotone_witness :
    respondToHelloTimes (sampleEnv []) 100 (sampleManager 0 0) emptyWorld
      = some (sampleManager 0 100,
          { emptyWorld with
            kv := [(inCurrentChannelKey, { Version := 0, Data := PutUint64 100 })] }) ∧
    ((sampleManager 0 100).inCurrentChannel
        ≤ (manager.mk 1 101 "keys" (some "NC_code36")).inCurrentChannel ∧
      (sampleManager 0 100).channelCount
        ≤ (manager.mk 1 101 "keys" (some "NC_code36")).channelCount ∧
      (sampleManager 0 0).inCurrentChannel ≤ (sampleManager 0 100).inCurrentChannel ∧
      (sampleManager 0 0).channelCount ≤ (sampleManager 0 100).channelCount) :=
  have hrun : respondToHelloTimes (sampleEnv []) 100 (sampleManager 0 0) emptyWorld
      = some (sampleManager 0 100,
          { emptyWorld with
            kv := [(inCurrentChannelKey, { Version := 0, Data := PutUint64 100 })] }) := by
    decide
  ⟨hrun, respondToHello_counters_monotone (sampleEnv []) (sampleManager 0 0)
    (sampleManager 0 100) (manager.mk 1 101 "keys" (some "NC_code36")) emptyWorld
    { emptyWorld with kv := [(inCurrentChannelKey, { Version := 0, Data := PutUint64 100 })] }
    { kv := [(currentChannelKey, { Version := 0, Data := stringBytes "NC_code36" }),
             (channelCountKey, { Version := 0, Data := PutUint64 1 }),
             (inCurrentChannelKey, { Version := 0, Data := PutUint64 101 })],
      fs := { dirs := ["keys/code36"],
              files := [("keys/code36/channelAdmin.key", [0]),
                        ("keys/code36/channelInfo.json", stringBytes "NC_code36")] },
      rng := 1, log := ["NC_code36"] }
    100 (stringBytes "NC_code36") hrun (by decide) (by decide) (by decide)⟩

/-! ## Restart -/

/-- C7: idempotent restart.  Let the three fields of a manager (counters of type `uint64`,
a current channel whose marshalled bytes unmarshal to it again) be persisted with
`saveCurrentPosition`, `saveChannelCount` and `saveCurrentChannel`.  The load part of
`Init`, run on that store from the initial manager of `Init`, returns a manager with the
same `channelCount`, `inCurrentChannel` and `currentChannelInfo` without generating a
channel (the world is left as it was), and one further `respondToHello` on the reloaded
manager has the same result, counters and store as on the manager that never
restarted. -/
theorem restart_then_respondToHello (env : Env Channel PrivateKey) (m : manager Channel)
    (ch : Channel) (w wa wb wc : World) (hwf : m.wf)
    (hch : m.currentChannelInfo = some ch)
    (hinv : env.UnmarshalChannel (env.Marshal (some ch)).1 = Except.ok ch)
    (hpos : saveCurrentPosition env m w = (wa, none))
    (hcount : saveChannelCount env m wa = (wb, none))
    (hchan : saveCurrentChannel env m wb = (wc, none)) :
    ∃ m1 : manager Channel,
      InitLoad env { channelCount := 0, inCurrentChannel := 0,
                     adminKeysDir := m.adminKeysDir, currentChannelInfo := none } wc
        = (wc, Outcome.ok m1) ∧
      m1.channelCount = m.channelCount ∧ m1.inCurrentChannel = m.inCurrentChannel ∧
      m1.currentChannelInfo = m.currentChannelInfo ∧
      respondToHello env m1 wc = respondToHello env m wc := by
  have hwa := kvSet_ok hpos
  have hwb := kvSet_ok hcount
  have hwc := kvSet_ok hchan
  have hkv : wc.kv = ((w.kv.put inCurrentChannelKey
        { Version := 0, Data := PutUint64 m.inCurrentChannel }).put channelCountKey
        { Version := 0, Data := PutUint64 m.channelCount }).put currentChannelKey
        { Version := 0, Data := (env.Marshal m.currentChannelInfo).1 } := by
    rw [hwc, hwb, hwa]
  have hc : loadUint64 wc.kv channelCountKey = some m.channelCount := by
    rw [hkv, loadUint64_congr (Get_put_other _ _ channelCountKey_ne_currentChannelKey)]
    exact loadUint64_put_same _ _ hwf.1
  have ho : loadUint64 wc.kv inCurrentChannelKey = some m.inCurrentChannel := by
    rw [hkv, loadUint64_congr (Get_put_other _ _ inCurrentChannelKey_ne_currentChannelKey),
      loadUint64_congr (Get_put_other _ _ inCurrentChannelKey_ne_channelCountKey)]
    exact loadUint64_put_same _ _ hwf.2
  have hg : wc.kv.Get currentChannelKey
      = some { Version := 0, Data := (env.Marshal (some ch)).1 } := by
    rw [hkv, Get_put_same, hch]
  have hm : ({ channelCount := m.channelCount, inCurrentChannel := m.inCurrentChannel,
               adminKeysDir := m.adminKeysDir, currentChannelInfo := some ch } :
      manager Channel) = m := by
    rw [← hch]
  refine ⟨m, ?_, rfl, rfl, rfl, rfl⟩
  unfold InitLoad
  simp only [hc, ho, hg, hinv, hm]

/-- Witness of C7: the state after the 101st joiner in the sample environment. -/
theorem restart_then_respondToHello_witness :
    ∃ m1 : manager String,
      InitLoad (sampleEnv [])
          { channelCount := 0, inCurrentChannel := 0, adminKeysDir := "keys",
            currentChannelInfo := none }
          { emptyWorld with
            kv := [(currentChannelKey, { Version := 0, Data := stringBytes "NC_code36" }),
                   (channelCountKey, { Version := 0, Data := PutUint64 1 }),
                   (inCurrentChannelKey, { Version := 0, Data := PutUint64 101 })] }
        = ({ emptyWorld with
            kv := [(currentChannelKey, { Version := 0, Data := stringBytes "NC_code36" }),
                   (channelCountKey, { Version := 0, Data := PutUint64 1 }),
                   (inCurrentChannelKey, { Version := 0, Data := PutUint64 101 })] },
            Outcome.ok m1) ∧
      m1.channelCount = 1 ∧ m1.inCurrentChannel = 101 ∧
      m1.currentChannelInfo = some "NC_code36" ∧
      respondToHello (sampleEnv []) m1
          { emptyWorld with
            kv := [(currentChannelKey, { Version := 0, Data := stringBytes "NC_code36" }),
                   (channelCountKey, { Version := 0, Data := PutUint64 1 }),
                   (inCurrentChannelKey, { Version := 0, Data := PutUint64 101 })] }
        = respondToHello (sampleEnv [])
          { sampleManager 1 101 with currentChannelInfo := some "NC_code36" }
          { emptyWorld with
            kv := [(currentChannelKey, { Version := 0, Data := stringBytes "NC_code36" }),
                   (channelCountKey, { Version := 0, Data := PutUint64 1 }),
                   (inCurrentChannelKey, { Version := 0, Data := PutUint64 101 })] } :=
  restart_then_respondToHello (sampleEnv [])
    { sampleManager 1 101 with currentChannelInfo := some "NC_code36" } "NC_code36"
    emptyWorld
    { emptyWorld with kv := [(inCurrentChannelKey, { Version := 0, Data := PutUint64 101 })] }
    { emptyWorld with
      kv := [(channelCountKey, { Version := 0, Data := PutUint64 1 }),
             (inCurrentChannelKey, { Version := 0, Data := PutUint64 101 })] }
    { emptyWorld with
      kv := [(currentChannelKey, { Version := 0, Data := stringBytes "NC_code36" }),
             (channelCountKey, { Version := 0, Data := PutUint64 1 }),
             (inCurrentChannelKey, { Version := 0, Data := PutUint64 101 })] }
    (by decide) rfl rfl (by decide) (by decide) (by decide)

/-! ## In-memory counters against the store -/

/-- The result of `respondToHello` when the occupancy write fails. -/
theorem respondToHello_position_fails_eq {env : Env Channel PrivateKey}
    {m : manager Channel} {w w1 : World} {e : Err} (hwf : m.wf)
    (hpos : saveCurrentPosition env { m with inCurrentChannel := inc64 m.inCurrentChannel } w
      = (w1, some e)) :
    respondToHello env m w = (m, w1, [], some (WithMessage e "failed to save new position")) := by
  unfold respondToHello
  simp only [hpos, dec64_inc64 hwf.2]

/-- The result of `respondToHello` when the cap is not exceeded. -/
theorem respondToHello_within_cap_eq {env : Env Channel PrivateKey}
    {m : manager Channel} {w w1 : World}
    (hpos : saveCurrentPosition env { m with inCurrentChannel := inc64 m.inCurrentChannel } w
      = (w1, none))
    (hcap : ¬ inc64 m.inCurrentChannel > noobChannelCap) :
    respondToHello env m w
      = ({ m with inCurrentChannel := inc64 m.inCurrentChannel }, w1,
          env.Marshal m.currentChannelInfo) := by
  unfold respondToHello
  simp only [hpos, hcap, if_false]

/-- The result of `respondToHello` when the rotation succeeds. -/
theorem respondToHello_rotation_eq {env : Env Channel PrivateKey}
    {m m3 : manager Channel} {w w1 w2 w3 : World}
    (hpos : saveCurrentPosition env { m with inCurrentChannel := inc64 m.inCurrentChannel } w
      = (w1, none))
    (hcap : inc64 m.inCurrentChannel > noobChannelCap)
    (hcount : saveChannelCount env
      { m with inCurrentChannel := inc64 m.inCurrentChannel,
               channelCount := inc64 m.channelCount } w1 = (w2, none))
    (hgen : generateNewChannel env
      { m with inCurrentChannel := inc64 m.inCurrentChannel,
               channelCount := inc64 m.channelCount } w2 = (m3, w3, none)) :
    respondToHello env m w = (m3, w3, env.Marshal m3.currentChannelInfo) := by
  unfold respondToHello
  simp only [hpos, hcap, if_true, hcount, hgen]

theorem NotAhead_intro {m : manager Channel} {kv : KV} {ro rc : Nat}
    (ho : loadUint64 kv inCurrentChannelKey = some ro)
    (hc : loadUint64 kv channelCountKey = some rc)
    (h1 : m.inCurrentChannel ≤ ro) (h2 : m.channelCount ≤ rc) : NotAhead m kv := by
  unfold NotAhead
  rw [ho, hc]
  exact ⟨h1, h2⟩

theorem NotAhead_elim {m : manager Channel} {kv : KV} (h : NotAhead m kv) :
    ∃ ro rc, loadUint64 kv inCurrentChannelKey = some ro ∧
      loadUint64 kv channelCountKey = some rc ∧
      m.inCurrentChannel ≤ ro ∧ m.channelCount ≤ rc := by
  unfold NotAhead at h
  split at h
  · rename_i ro rc ho hc
    exact ⟨ro, rc, ho, hc, h.1, h.2⟩
  · exact h.elim

/-- C8 (counterexample): two states whose counters are not ahead of the store, with store
writes that fail without changing the store.  In the first the stored `channelCount` is 3
and the in-memory one 0: a fully successful call under the cap leaves them different.  In
the second `channelCount` is `2^64 - 1` in memory and in the store: the rotation stores the
wrapped count 0, the channel generation fails, and the reverted in-memory count
`2^64 - 1` is ahead of the stored 0. -/
theorem respondToHello_not_ahead_fails :
    FailedSetKeepsStore (sampleEnv []) ∧
    NotAhead (sampleManager 0 0)
      [(channelCountKey, { Version := 0, Data := PutUint64 3 })] ∧
    (respondToHello (sampleEnv []) (sampleManager 0 0)
      { emptyWorld with
        kv := [(channelCountKey, { Version := 0, Data := PutUint64 3 })] }).2.2.2 = none ∧
    loadUint64 (respondToHello (sampleEnv []) (sampleManager 0 0)
      { emptyWorld with
        kv := [(channelCountKey, { Version := 0, Data := PutUint64 3 })] }).2.1.kv
      channelCountKey = some 3 ∧
    (respondToHello (sampleEnv []) (sampleManager 0 0)
      { emptyWorld with
        kv := [(channelCountKey, { Version := 0, Data := PutUint64 3 })] }).1.channelCount
      = 0 ∧
    (sampleManager 18446744073709551615 100).wf ∧
    NotAhead (sampleManager 18446744073709551615 100)
      [(channelCountKey, { Version := 0, Data := PutUint64 18446744073709551615 }),
       (inCurrentChannelKey, { Version := 0, Data := PutUint64 100 })] ∧
    (respondToHello (sampleEnv []) (sampleManager 18446744073709551615 100)
      { emptyWorld with
        kv := [(channelCountKey, { Version := 0, Data := PutUint64 18446744073709551615 }),
               (inCurrentChannelKey, { Version := 0, Data := PutUint64 100 })],
        fs := { dirs := ["keys/code36"], files := [] } }).2.2.2.isSome = true ∧
    ¬ NotAhead
      (respondToHello (sampleEnv []) (sampleManager 18446744073709551615 100)
        { emptyWorld with
          kv := [(channelCountKey, { Version := 0, Data := PutUint64 18446744073709551615 }),
                 (inCurrentChannelKey, { Version := 0, Data := PutUint64 100 })],
          fs := { dirs := ["keys/code36"], files := [] } }).1
      (respondToHello (sampleEnv []) (sampleManager 18446744073709551615 100)
        { emptyWorld with
          kv := [(channelCountKey, { Version := 0, Data := PutUint64 18446744073709551615 }),
                 (inCurrentChannelKey, { Version := 0, Data := PutUint64 100 })],
          fs := { dirs := ["keys/code36"], files := [] } }).2.1.kv :=
  ⟨sampleEnv_keeps [], by decide, by decide, by decide, by decide, by decide, by decide,
    by decide, by decide⟩

/-- C8 (amended): assume that a failed store write leaves the store unchanged, that before
a `respondToHello` call the in-memory `inCurrentChannel` and `channelCount` are each at
most the values recorded in the store, and that `channelCount` is below the largest
`uint64`.  Then after the call, whichever step failed, the in-memory counters are still
each at most the recorded values.  After a fully successful call `inCurrentChannel` equals
its recorded value, and `channelCount` equals its recorded value when the call rotated or
when it was equal to its recorded value before the call. -/
theorem respondToHello_not_ahead (env : Env Channel PrivateKey) (m : manager Channel)
    (w : World) (hwf : m.wf) (hkeep : FailedSetKeepsStore env) (hpre : NotAhead m w.kv)
    (hmax : m.channelCount + 1 < uint64Size) :
    NotAhead (respondToHello env m w).1 (respondToHello env m w).2.1.kv ∧
    ((respondToHello env m w).2.2.2 = none →
      loadUint64 (respondToHello env m w).2.1.kv inCurrentChannelKey
        = some (respondToHello env m w).1.inCurrentChannel ∧
      ((inc64 m.inCurrentChannel > noobChannelCap ∨
          loadUint64 w.kv channelCountKey = some m.channelCount) →
        loadUint64 (respondToHello env m w).2.1.kv channelCountKey
          = some (respondToHello env m w).1.channelCount)) := by
  obtain ⟨ro, rc, hro, hrc, hle1, hle2⟩ := NotAhead_elim hpre
  rcases hpos : saveCurrentPosition env
      { m with inCurrentChannel := inc64 m.inCurrentChannel } w with ⟨w1, _ | e⟩
  · have hw1 := kvSet_ok hpos
    have ho1 : loadUint64 w1.kv inCurrentChannelKey = some (inc64 m.inCurrentChannel) := by
      rw [hw1]
      exact loadUint64_put_same _ _ (inc64_lt _)
    have hc1 : loadUint64 w1.kv channelCountKey = some rc := by
      rw [hw1, ← hrc]
      exact loadUint64_congr
        (Get_put_other _ _ (Ne.symm inCurrentChannelKey_ne_channelCountKey))
    by_cases hcap : inc64 m.inCurrentChannel > noobChannelCap
    · have hinc : inc64 m.inCurrentChannel = m.inCurrentChannel + 1 := by
        have h2 := hwf.2
        unfold inc64 uint64Size noobChannelCap at *
        omega
      have hincc : inc64 m.channelCount = m.channelCount + 1 := inc64_eq_succ hmax
      rcases hcount : saveChannelCount env
          { m with inCurrentChannel := inc64 m.inCurrentChannel,
                   channelCount := inc64 m.channelCount } w1 with ⟨w2, _ | e⟩
      · have hw2 := kvSet_ok hcount
        have ho2 : loadUint64 w2.kv inCurrentChannelKey = some (inc64 m.inCurrentChannel) := by
          rw [hw2, ← ho1]
          exact loadUint64_congr (Get_put_other _ _ inCurrentChannelKey_ne_channelCountKey)
        have hc2 : loadUint64 w2.kv channelCountKey = some (inc64 m.channelCount) := by
          rw [hw2]
          exact loadUint64_put_same _ _ (inc64_lt _)
        have hgo := generateNewChannel_Get_other hkeep
          { m with inCurrentChannel := inc64 m.inCurrentChannel,
                   channelCount := inc64 m.channelCount } w2
          inCurrentChannelKey_ne_currentChannelKey
        have hgc := generateNewChannel_Get_other hkeep
          { m with inCurrentChannel := inc64 m.inCurrentChannel,
                   channelCount := inc64 m.channelCount } w2
          channelCountKey_ne_currentChannelKey
        have hcnt := generateNewChannel_counters env
          { m with inCurrentChannel := inc64 m.inCurrentChannel,
                   channelCount := inc64 m.channelCount } w2
        rcases hgen : generateNewChannel env
            { m with inCurrentChannel := inc64 m.inCurrentChannel,
                     channelCount := inc64 m.channelCount } w2 with ⟨m3, w3, _ | e⟩
        · rw [hgen] at hgo hgc hcnt
          simp only at hgo hgc hcnt
          have ho3 := (loadUint64_congr hgo).trans ho2
          have hc3 := (loadUint64_congr hgc).trans hc2
          rw [respondToHello_rotation_eq hpos hcap hcount hgen]
          simp only
          refine ⟨NotAhead_intro ho3 hc3 (by rw [hcnt.2.1]) (by rw [hcnt.1]), fun _ => ?_⟩
          exact ⟨by rw [hcnt.2.1]; exact ho3, fun _ => by rw [hcnt.1]; exact hc3⟩
        · rw [hgen] at hgo hgc
          simp only at hgo hgc
          have ho3 := (loadUint64_congr hgo).trans ho2
          have hc3 := (loadUint64_congr hgc).trans hc2
          rw [respondToHello_generate_fails hwf hpos hcap hcount hgen]
          simp only
          refine ⟨NotAhead_intro ho3 hc3 ?_ ?_, fun h => ?_⟩
          · simp only; omega
          · simp only; omega
          · simp at h
      · have hw2 : w2 = w1 := kvSet_fail hkeep hcount
        rw [respondToHello_count_write_fails hwf hpos hcap hcount, hw2]
        simp only
        refine ⟨NotAhead_intro ho1 hc1 (by omega) hle2, fun h => ?_⟩
        simp at h
    · rw [respondToHello_within_cap_eq hpos hcap]
      simp only
      refine ⟨NotAhead_intro ho1 hc1 (Nat.le_refl _) hle2, fun _ => ⟨ho1, fun h => ?_⟩⟩
      rcases h with h | h
      · exact absurd h hcap
      · rw [hc1, ← hrc, h]
  · have hw1 : w1 = w := kvSet_fail hkeep hpos
    rw [respondToHello_position_fails_eq hwf hpos, hw1]
    simp only
    exact ⟨hpre, fun h => by simp at h⟩

/-- Witness of C8 (amended): the 101st joiner in the sample environment, with the channel
generation failing on an existing directory. -/
theorem respondToHello_not_ahead_witness :
    NotAhead
      (respondToHello (sampleEnv []) (sampleManager 0 100)
        { emptyWorld with
          kv := [(inCurrentChannelKey, { Version := 0, Data := PutUint64 100 })],
          fs := { dirs := ["keys/code36"], files := [] } }).1
      (respondToHello (sampleEnv []) (sampleManager 0 100)
        { emptyWorld with
          kv := [(inCurrentChannelKey, { Version := 0, Data := PutUint64 100 })],
          fs := { dirs := ["keys/code36"], files := [] } }).2.1.kv :=
  (respondToHello_not_ahead (sampleEnv []) (sampleManager 0 100)
    { emptyWorld with
          kv := [(inCurrentChannelKey, { Version := 0, Data := PutUint64 100 })],
          fs := { dirs := ["keys/code36"], files := [] } }
    (by decide) (sampleEnv_keeps []) (by decide) (by decide)).1

/-! ## Loading the state in `Init` -/

/-- C9 (counterexample): the store holds a `channelCount` record of three bytes and a
well-formed `currentChannel` record.  The load part of `Init` panics in
`binary.BigEndian.Uint64`: no manager is returned, although the channel unmarshals. -/
theorem InitLoad_short_counter_panics :
    KV.Get [(channelCountKey, { Version := 0, Data := [1, 2, 3] }),
            (currentChannelKey, { Version := 0, Data := stringBytes "first" })]
        currentChannelKey = some { Version := 0, Data := stringBytes "first" } ∧
    (sampleEnv []).UnmarshalChannel (stringBytes "first") = Except.ok "first" ∧
    InitLoad (sampleEnv [])
        { channelCount := 0, inCurrentChannel := 0, adminKeysDir := "keys",
          currentChannelInfo := none }
        { emptyWorld with
          kv := [(channelCountKey, { Version := 0, Data := [1, 2, 3] }),
                 (currentChannelKey, { Version := 0, Data := stringBytes "first" })] }
      = ({ emptyWorld with
          kv := [(channelCountKey, { Version := 0, Data := [1, 2, 3] }),
                 (currentChannelKey, { Version := 0, Data := stringBytes "first" })] },
          Outcome.panic) :=
  ⟨by decide, rfl, by decide⟩

theorem loadUint64_of_length {kv : KV} {key : String}
    (h : ∀ obj, kv.Get key = some obj → 8 ≤ obj.Data.length) :
    ∃ v, loadUint64 kv key = some v ∧
      (match kv.Get key with
        | none => v = 0
        | some obj => Uint64 obj.Data = some v) := by
  unfold loadUint64
  cases hg : kv.Get key with
  | none => exact ⟨0, rfl, rfl⟩
  | some obj =>
    have hs := (Uint64_isSome_iff obj.Data).2 (h obj hg)
    obtain ⟨v, hv⟩ := Option.isSome_iff_exists.1 hs
    exact ⟨v, hv, hv⟩

/-- C9 (amended): load semantics of `Init`, for every store content whose `channelCount`
and `inCurrentChannel` records, when present, hold at least eight bytes of data.
`channelCount` is 0 if its record is absent and otherwise the big-endian `uint64` decoding
of its data, and likewise `inCurrentChannel`.  If the `currentChannel` record is absent a
new channel is generated with `generateNewChannel` on the loaded counters (and `Init` fails
when the generation fails); if it is present and unmarshals, `currentChannelInfo` is the
unmarshalled definition and nothing is generated (the world is unchanged); if it is present
and malformed, `Init` fails and returns no manager. -/
theorem InitLoad_semantics (env : Env Channel PrivateKey) (m0 : manager Channel) (w : World)
    (hcc : ∀ obj, w.kv.Get channelCountKey = some obj → 8 ≤ obj.Data.length)
    (hic : ∀ obj, w.kv.Get inCurrentChannelKey = some obj → 8 ≤ obj.Data.length) :
    ∃ cc ic : Nat,
      (match w.kv.Get channelCountKey with
        | none => cc = 0
        | some obj => Uint64 obj.Data = some cc) ∧
      (match w.kv.Get inCurrentChannelKey with
        | none => ic = 0
        | some obj => Uint64 obj.Data = some ic) ∧
      (match w.kv.Get currentChannelKey with
        | none =>
          (∀ (m1 : manager Channel) (w1 : World),
            generateNewChannel env { m0 with channelCount := cc, inCurrentChannel := ic } w
              = (m1, w1, none) →
            InitLoad env m0 w = (w1, Outcome.ok m1) ∧
              m1.channelCount = cc ∧ m1.inCurrentChannel = ic) ∧
          (∀ (m1 : manager Channel) (w1 : World) (e : Err),
            generateNewChannel env { m0 with channelCount := cc, inCurrentChannel := ic } w
              = (m1, w1, some e) →
            InitLoad env m0 w
              = (w1, Outcome.error (WithMessage e "failed to generate new channel")))
        | some obj =>
          match env.UnmarshalChannel obj.Data with
          | Except.ok ch =>
            InitLoad env m0 w
              = (w, Outcome.ok { channelCount := cc, inCurrentChannel := ic,
                                 adminKeysDir := m0.adminKeysDir,
                                 currentChannelInfo := some ch })
          | Except.error e =>
            InitLoad env m0 w
              = (w, Outcome.error
                  (WithMessage e "failed to unmarshal current channel info"))) := by
  obtain ⟨cc, hlc, hmc⟩ := loadUint64_of_length hcc
  obtain ⟨ic, hli, hmi⟩ := loadUint64_of_length hic
  refine ⟨cc, ic, hmc, hmi, ?_⟩
  unfold InitLoad
  simp only [hlc, hli]
  cases hg : w.kv.Get currentChannelKey with
  | none =>
    simp only
    constructor
    · intro m1 w1 hgen
      have hcnt := generateNewChannel_counters env
        { m0 with channelCount := cc, inCurrentChannel := ic } w
      rw [hgen] at hcnt
      simp only [hgen]
      exact ⟨trivial, hcnt.1, hcnt.2.1⟩
    · intro m1 w1 e hgen
      simp only [hgen]
  | some obj =>
    simp only
    cases hu : env.UnmarshalChannel obj.Data with
    | ok ch => rfl
    | error e => rfl

/-- Witness of C9 (amended): a store with both counters and the current channel. -/
theorem InitLoad_semantics_witness :
    ∃ cc ic : Nat,
      Uint64 (PutUint64 1) = some cc ∧ Uint64 (PutUint64 101) = some ic ∧
      InitLoad (sampleEnv [])
          { channelCount := 0, inCurrentChannel := 0, adminKeysDir := "keys",
            currentChannelInfo := none }
          { emptyWorld with
            kv := [(currentChannelKey, { Version := 0, Data := stringBytes "NC_code36" }),
                   (channelCountKey, { Version := 0, Data := PutUint64 1 }),
                   (inCurrentChannelKey, { Version := 0, Data := PutUint64 101 })] }
        = ({ emptyWorld with
            kv := [(currentChannelKey, { Version := 0, Data := stringBytes "NC_code36" }),
                   (channelCountKey, { Version := 0, Data := PutUint64 1 }),
                   (inCurrentChannelKey, { Version := 0, Data := PutUint64 101 })] },
            Outcome.ok { channelCount := cc, inCurrentChannel := ic, adminKeysDir := "keys",
                         currentChannelInfo := some "NC_code36" }) :=
  InitLoad_semantics (sampleEnv [])
    { channelCount := 0, inCurrentChannel := 0, adminKeysDir := "keys",
      currentChannelInfo := none }
    { emptyWorld with
      kv := [(currentChannelKey, { Version := 0, Data := stringBytes "NC_code36" }),
             (channelCountKey, { Version := 0, Data := PutUint64 1 }),
             (inCurrentChannelKey, { Version := 0, Data := PutUint64 101 })] }
    (fun obj h => by
      have h0 : KV.Get [(currentChannelKey, { Version := 0, Data := stringBytes "NC_code36" }),
          (channelCountKey, { Version := 0, Data := PutUint64 1 }),
          (inCurrentChannelKey, { Version := 0, Data := PutUint64 101 })] channelCountKey
          = some { Version := 0, Data := PutUint64 1 } := by decide
      have h1 := Option.some.inj (h0.symm.trans h)
      rw [← h1]
      decide)
    (fun obj h => by
      have h0 : KV.Get [(currentChannelKey, { Version := 0, Data := stringBytes "NC_code36" }),
          (channelCountKey, { Version := 0, Data := PutUint64 1 }),
          (inCurrentChannelKey, { Version := 0, Data := PutUint64 101 })] inCurrentChannelKey
          = some { Version := 0, Data := PutUint64 101 } := by decide
      have h1 := Option.some.inj (h0.symm.trans h)
      rw [← h1]
      decide)

/-! ## Naming of generated channels -/

theorem WriteFile_dirs (env : Env Channel PrivateKey) (fs : FS) (file : String)
    (data : Bytes) : (WriteFile env fs file data).1.dirs = fs.dirs := by
  unfold WriteFile
  split <;> rfl

/-- A successful `writeAdminToDisk` has created the directory of the codename. -/
theorem writeAdminToDisk_ok_dir {env : Env Channel PrivateKey} {m : manager Channel}
    {w w1 : World} {c : String} {ch : Channel} {pk : PrivateKey}
    (h : writeAdminToDisk env m w c ch pk = (w1, none)) :
    env.pathJoin m.adminKeysDir c ∈ w1.fs.dirs := by
  unfold writeAdminToDisk at h
  simp only at h
  split at h
  · simp at h
  · rename_i fs1 hmk
    have hd : env.pathJoin m.adminKeysDir c ∈ fs1.dirs := by
      unfold osMkdir at hmk
      split at hmk
      · simp at hmk
      · split at hmk
        · simp at hmk
        · simp only [Prod.mk.injEq, and_true] at hmk
          rw [← hmk]
          exact List.mem_cons_self _ _
    split at h
    · simp at h
    · split at h
      · simp at h
      · rename_i bs hmar _ fs2 hw2
        have h2 := WriteFile_dirs env fs1
          (env.pathJoin (env.pathJoin m.adminKeysDir c) "channelInfo.json") bs
        split at h
        · simp at h
        · rename_i fs3 hw3
          have h3 := WriteFile_dirs env fs2
            (env.pathJoin (env.pathJoin m.adminKeysDir c) "channelAdmin.key")
            (env.MarshalPem pk)
          simp only [Prod.mk.injEq, and_true] at h
          rw [← h]
          rw [hw3] at h3
          rw [hw2] at h2
          simp only at h2 h3 ⊢
          rw [h3, h2]
          exact hd

/-- The name logged by `generateNewChannel` is `channelName`. -/
theorem generateNewChannel_log (env : Env Channel PrivateKey) (m : manager Channel)
    (w : World) : (generateNewChannel env m w).2.1.log = w.log ++ [channelName env m] := by
  unfold generateNewChannel
  simp only
  split
  · rfl
  · rename_i newChannel privateKey rng hnew
    have hs := kvSet_log env { w with log := w.log ++ [channelName env m], rng := rng }
      currentChannelKey { Version := 0, Data := (env.Marshal (some newChannel)).1 }
    split
    · rename_i w1 err hsave
      unfold saveCurrentChannel at hsave
      simp only at hsave
      rw [hsave] at hs
      exact hs
    · rename_i w1 hsave
      unfold saveCurrentChannel at hsave
      simp only at hsave
      rw [hsave] at hs
      have hk := (writeAdminToDisk_kv env { m with currentChannelInfo := some newChannel }
        w1 (newChannelCodename env { m with currentChannelInfo := some newChannel })
        newChannel privateKey).2
      split
      · rename_i w2 err hw
        rw [hw] at hk
        simp only at hk ⊢
        rw [hk]; exact hs
      · rename_i w2 hw
        rw [hw] at hk
        simp only at hk ⊢
        rw [hk]; exact hs

/-- A successful `generateNewChannel` has created the directory named by the codename
under the admin-key directory. -/
theorem generateNewChannel_ok_dir {env : Env Channel PrivateKey} {m m1 : manager Channel}
    {w w1 : World} (h : generateNewChannel env m w = (m1, w1, none)) :
    env.pathJoin m.adminKeysDir (newChannelCodename env m) ∈ w1.fs.dirs := by
  unfold generateNewChannel at h
  simp only at h
  split at h
  · simp at h
  · split at h
    · simp at h
    · split at h
      · simp at h
      · rename_i w3 hw
        simp only [Prod.mk.injEq, and_true] at h
        rw [← h.2]
        exact writeAdminToDisk_ok_dir hw

/-- When `broadcast.NewChannel`, asked for `channelName`, fails, `generateNewChannel`
returns that failure and leaves the manager as it was. -/
theorem generateNewChannel_NewChannel_error {env : Env Channel PrivateKey}
    {m : manager Channel} {w : World} {e : Err} {rng : Nat}
    (hnew : env.NewChannel (channelName env m) noobChannelDescription PrivacyLevel.Public
      env.GetMaxMessageLength w.rng = (Except.error e, rng)) :
    generateNewChannel env m w
      = (m, { w with log := w.log ++ [channelName env m], rng := rng },
          some (WithMessage e "failed to generate new noob channel")) := by
  unfold generateNewChannel
  simp only [hnew]

/-- When `broadcast.NewChannel`, asked for `channelName`, answers with a channel, that
channel is installed as `currentChannelInfo`, and a run without error has stored its
marshalled bytes under `currentChannelKey`. -/
theorem generateNewChannel_NewChannel_ok {env : Env Channel PrivateKey}
    {m : manager Channel} {w : World} {ch : Channel} {pk : PrivateKey} {rng : Nat}
    (hnew : env.NewChannel (channelName env m) noobChannelDescription PrivacyLevel.Public
      env.GetMaxMessageLength w.rng = (Except.ok (ch, pk), rng)) :
    (generateNewChannel env m w).1 = { m with currentChannelInfo := some ch } ∧
    ((generateNewChannel env m w).2.2 = none →
      (generateNewChannel env m w).2.1.kv.Get currentChannelKey
        = some { Version := 0, Data := (env.Marshal (some ch)).1 }) := by
  unfold generateNewChannel
  simp only [hnew]
  split
  · exact ⟨rfl, fun h => by simp at h⟩
  · rename_i w2 hsave
    have hw2 := kvSet_ok hsave
    have hk := (writeAdminToDisk_kv env { m with currentChannelInfo := some ch } w2
      (newChannelCodename env { m with currentChannelInfo := some ch }) ch pk).1
    split
    · exact ⟨rfl, fun h => by simp at h⟩
    · rename_i w3 hw
      refine ⟨rfl, fun _ => ?_⟩
      rw [hw] at hk
      simp only at hk ⊢
      rw [hk, hw2]
      exact Get_put_same _ _ _

/-- C10: deterministic naming.  For two managers with the same `channelCount`, whatever
their occupancy, current channel, admin directory and world (store, files, randomness
stream), `generateNewChannel` works with one codename and one channel name: the codename
is `codename(Hash(decimal string of channelCount followed by the salt))` and the name is
`NC_` followed by that codename.  In either run that name is the one logged and the one
handed to `broadcast.NewChannel`: if `NewChannel` fails for that name the run returns its
failure, and if it answers with a channel for that name that channel is installed, and a
run without error has stored it and created the directory named by the codename. -/
theorem generateNewChannel_naming (env : Env Channel PrivateKey) (m1 m2 : manager Channel)
    (w1 w2 : World) (h : m1.channelCount = m2.channelCount) :
    ∃ code name : String,
      code = env.GenerateChannelCodename
          (env.CMixHash
            (stringBytes (toString m1.channelCount) ++ stringBytes noobChannelSalt)) ∧
      name = "NC_" ++ code ∧
      newChannelCodename env m1 = code ∧ channelName env m1 = name ∧
      newChannelCodename env m2 = code ∧ channelName env m2 = name ∧
      ∀ (m : manager Channel) (w : World), (m = m1 ∧ w = w1) ∨ (m = m2 ∧ w = w2) →
        (generateNewChannel env m w).2.1.log = w.log ++ [name] ∧
        (∀ (e : Err) (rng : Nat),
          env.NewChannel name noobChannelDescription PrivacyLevel.Public
            env.GetMaxMessageLength w.rng = (Except.error e, rng) →
          generateNewChannel env m w
            = (m, { w with log := w.log ++ [name], rng := rng },
                some (WithMessage e "failed to generate new noob channel"))) ∧
        (∀ (ch : Channel) (pk : PrivateKey) (rng : Nat),
          env.NewChannel name noobChannelDescription PrivacyLevel.Public
            env.GetMaxMessageLength w.rng = (Except.ok (ch, pk), rng) →
          (generateNewChannel env m w).1 = { m with currentChannelInfo := some ch } ∧
          ((generateNewChannel env m w).2.2 = none →
            (generateNewChannel env m w).2.1.kv.Get currentChannelKey
              = some { Version := 0, Data := (env.Marshal (some ch)).1 } ∧
            env.pathJoin m.adminKeysDir code ∈ (generateNewChannel env m w).2.1.fs.dirs)) := by
  have hcode : newChannelCodename env m2 = newChannelCodename env m1 := by
    unfold newChannelCodename
    rw [h]
  have hname : channelName env m2 = channelName env m1 := by
    unfold channelName
    rw [hcode]
  have hrun : ∀ (m : manager Channel) (w : World),
      newChannelCodename env m = newChannelCodename env m1 →
      channelName env m = channelName env m1 →
      (generateNewChannel env m w).2.1.log = w.log ++ [channelName env m1] ∧
      (∀ (e : Err) (rng : Nat),
        env.NewChannel (channelName env m1) noobChannelDescription PrivacyLevel.Public
          env.GetMaxMessageLength w.rng = (Except.error e, rng) →
        generateNewChannel env m w
          = (m, { w with log := w.log ++ [channelName env m1], rng := rng },
              some (WithMessage e "failed to generate new noob channel"))) ∧
      (∀ (ch : Channel) (pk : PrivateKey) (rng : Nat),
        env.NewChannel (channelName env m1) noobChannelDescription PrivacyLevel.Public
          env.GetMaxMessageLength w.rng = (Except.ok (ch, pk), rng) →
        (generateNewChannel env m w).1 = { m with currentChannelInfo := some ch } ∧
        ((generateNewChannel env m w).2.2 = none →
          (generateNewChannel env m w).2.1.kv.Get currentChannelKey
            = some { Version := 0, Data := (env.Marshal (some ch)).1 } ∧
          env.pathJoin m.adminKeysDir (newChannelCodename env m1)
            ∈ (generateNewChannel env m w).2.1.fs.dirs)) := by
    intro m w hc hn
    rw [← hc, ← hn]
    refine ⟨generateNewChannel_log env m w, ?_, ?_⟩
    · intro e rng hnew
      exact generateNewChannel_NewChannel_error hnew
    · intro ch pk rng hnew
      obtain ⟨hinst, hstore⟩ := generateNewChannel_NewChannel_ok hnew
      refine ⟨hinst, fun hok => ⟨hstore hok, ?_⟩⟩
      exact generateNewChannel_ok_dir (Prod.ext rfl (Prod.ext rfl hok))
  refine ⟨newChannelCodename env m1, channelName env m1, rfl, rfl, rfl, rfl, hcode, hname, ?_⟩
  intro m w hmw
  rcases hmw with ⟨hm, hw⟩ | ⟨hm, hw⟩
  · subst hm; subst hw
    exact hrun m w rfl rfl
  · subst hm; subst hw
    exact hrun m w hcode hname

/-- Witness of C10: two managers with count 1 that differ in everything else, in worlds
with different randomness streams; both are given the channel of the one name. -/
theorem generateNewChannel_naming_witness :
    ∃ code name : String,
      code = "code36" ∧ name = "NC_code36" ∧
      (generateNewChannel (sampleEnv []) (sampleManager 1 101) emptyWorld).1
        = { sampleManager 1 101 with currentChannelInfo := some name } ∧
      (generateNewChannel (sampleEnv [])
          { channelCount := 1, inCurrentChannel := 7, adminKeysDir := "other",
            currentChannelInfo := none }
          { emptyWorld with rng := 5, log := ["earlier"] }).1
        = { channelCount := 1, inCurrentChannel := 7, adminKeysDir := "other",
            currentChannelInfo := some name } ∧
      (generateNewChannel (sampleEnv [])
          { channelCount := 1, inCurrentChannel := 7, adminKeysDir := "other",
            currentChannelInfo := none }
          { emptyWorld with rng := 5, log := ["earlier"] }).2.1.log
        = ["earlier", name] := by
  obtain ⟨code, name, hc, hn, -, -, -, -, hall⟩ :=
    generateNewChannel_naming (sampleEnv []) (sampleManager 1 101)
      { channelCount := 1, inCurrentChannel := 7, adminKeysDir := "other",
        currentChannelInfo := none }
      emptyWorld { emptyWorld with rng := 5, log := ["earlier"] } rfl
  have hc1 : code = "code36" := by rw [hc]; decide
  have hn1 : name = "NC_code36" := by rw [hn, hc1]; decide
  obtain ⟨-, -, hok1⟩ := hall _ _ (Or.inl ⟨rfl, rfl⟩)
  obtain ⟨hlog2, -, hok2⟩ := hall _ _ (Or.inr ⟨rfl, rfl⟩)
  refine ⟨code, name, hc1, hn1, ?_, ?_, ?_⟩
  · exact (hok1 name 0 1 (by rw [hn1]; rfl)).1
  · exact (hok2 name 5 6 (by rw [hn1]; rfl)).1
  · exact hlog2

/-! ## Occupancy is not reset by a rotation -/

/-- Above the cap, and as long as the occupancy cannot pass the largest `uint64`, every
successful call adds one to the occupancy and one (as a `uint64`) to the channel count. -/
theorem respondToHelloTimes_above_cap (env : Env Channel PrivateKey) (n : Nat) :
    ∀ (m mn : manager Channel) (w wn : World),
      respondToHelloTimes env n m w = some (mn, wn) →
      m.channelCount < uint64Size → noobChannelCap ≤ m.inCurrentChannel →
      m.inCurrentChannel + n < uint64Size →
      mn.inCurrentChannel = m.inCurrentChannel + n ∧
        mn.channelCount = (m.channelCount + n) % uint64Size := by
  induction n with
  | zero =>
    intro m mn w wn h hc _ _
    simp only [respondToHelloTimes, Option.some.injEq, Prod.mk.injEq] at h
    rw [← h.1]
    exact ⟨rfl, (Nat.mod_eq_of_lt hc).symm⟩
  | succ k ih =>
    intro m mn w wn h hc hcap hmax
    unfold respondToHelloTimes at h
    split at h
    · rename_i ma wa ba hcall
      obtain ⟨hinc, -, hcase⟩ := respondToHello_ok hcall
      rw [inc64_eq_succ (by omega)] at hinc hcase
      have hnew : ma.channelCount = inc64 m.channelCount := by
        rcases hcase with ⟨hle, _⟩ | ⟨_, hnew, _⟩
        · omega
        · exact hnew
      obtain ⟨h1, h2⟩ := ih ma mn wa wn h (by rw [hnew]; exact inc64_lt _) (by omega)
        (by omega)
      refine ⟨by omega, ?_⟩
      rw [h2, hnew]
      unfold inc64 uint64Size
      omega
    · simp at h

/-- C11 (counterexample): the occupancy `2^64 - 2` is at least 100 and below the largest
`uint64`.  Two calls from there succeed; the first rotates and leaves the occupancy
`2^64 - 1`, the second wraps the occupancy to 0, stays under the cap and does not rotate:
after the two calls `channelCount` is 1, not 2. -/
theorem respondToHello_rotation_stops_at_wrap :
    (sampleManager 0 18446744073709551614).wf ∧
    noobChannelCap ≤ (sampleManager 0 18446744073709551614).inCurrentChannel ∧
    (sampleManager 0 18446744073709551614).inCurrentChannel < uint64Size - 1 ∧
    (respondToHelloTimes (sampleEnv []) 1 (sampleManager 0 18446744073709551614)
        emptyWorld).map (fun p => (p.1.inCurrentChannel, p.1.channelCount))
      = some (18446744073709551615, 1) ∧
    (respondToHelloTimes (sampleEnv []) 2 (sampleManager 0 18446744073709551614)
        emptyWorld).map (fun p => (p.1.inCurrentChannel, p.1.channelCount))
      = some (0, 1) ∧
    ¬ (inc64 18446744073709551615 > noobChannelCap) ∧
    ¬ ((respondToHelloTimes (sampleEnv []) 2 (sampleManager 0 18446744073709551614)
        emptyWorld).map (fun p => p.1.channelCount)
      = some ((sampleManager 0 18446744073709551614).channelCount + 2)) := by
  decide

/-- C11 (amended): occupancy is never reset on rotation.  Take a state with
`inCurrentChannel` at least 100 and a number `n` of calls that cannot carry the occupancy
past the largest `uint64` (`inCurrentChannel + n` is below `2^64`).  After `n` successful
calls the occupancy is the initial one plus `n` and `channelCount` is the initial one plus
`n` (a `uint64` sum, the plain sum when that is below `2^64`).  Each of these calls takes
the exceeds-cap branch: it leaves `inCurrentChannel` at its pre-call value plus 1 (not 0),
increments `channelCount` by one and installs and returns a newly generated channel. -/
theorem respondToHello_rotates_every_call (env : Env Channel PrivateKey)
    (m mn : manager Channel) (w wn : World) (n : Nat) (hwf : m.wf)
    (hcap : noobChannelCap ≤ m.inCurrentChannel)
    (hmax : m.inCurrentChannel + n < uint64Size)
    (hrun : respondToHelloTimes env n m w = some (mn, wn)) :
    mn.inCurrentChannel = m.inCurrentChannel + n ∧
    mn.channelCount = (m.channelCount + n) % uint64Size ∧
    (m.channelCount + n < uint64Size → mn.channelCount = m.channelCount + n) ∧
    (∀ (k : Nat) (mk m1 : manager Channel) (wk w1 : World) (bytes : Bytes),
      k < n → respondToHelloTimes env k m w = some (mk, wk) →
      respondToHello env mk wk = (m1, w1, bytes, none) →
      inc64 mk.inCurrentChannel > noobChannelCap ∧
      m1.inCurrentChannel = mk.inCurrentChannel + 1 ∧
      m1.channelCount = inc64 mk.channelCount ∧
      ∃ ch pk rng,
        env.NewChannel (channelName env { mk with channelCount := inc64 mk.channelCount })
          noobChannelDescription PrivacyLevel.Public env.GetMaxMessageLength wk.rng
          = (Except.ok (ch, pk), rng) ∧
        m1.currentChannelInfo = some ch ∧ env.Marshal (some ch) = (bytes, none)) := by
  obtain ⟨h1, h2⟩ := respondToHelloTimes_above_cap env n m mn w wn hrun hwf.1 hcap hmax
  refine ⟨h1, h2, fun hlt => by rw [h2]; exact Nat.mod_eq_of_lt hlt, ?_⟩
  intro k mk m1 wk w1 bytes hk hpre hcall
  obtain ⟨hk1, -⟩ := respondToHelloTimes_above_cap env k m mk w wk hpre hwf.1 hcap
    (by omega)
  obtain ⟨hinc, -, hcase⟩ := respondToHello_ok hcall
  have hsucc : inc64 mk.inCurrentChannel = mk.inCurrentChannel + 1 :=
    inc64_eq_succ (by omega)
  have hgt : inc64 mk.inCurrentChannel > noobChannelCap := by
    rw [hsucc]; omega
  rcases hcase with ⟨hle, _⟩ | ⟨_, hnew, hex⟩
  · omega
  · exact ⟨hgt, hinc.trans hsucc, hnew, hex⟩

/-- Witness of C11 (amended): two consecutive rotations in the sample environment,
from the occupancy 100 and the count 8. -/
theorem respondToHello_rotates_every_call_witness :
    respondToHelloTimes (sampleEnv []) 2 (sampleManager 8 100) emptyWorld
      = some (manager.mk 10 102 "keys" (some "NC_code37"),
          { kv := [(currentChannelKey, { Version := 0, Data := stringBytes "NC_code37" }),
                   (channelCountKey, { Version := 0, Data := PutUint64 10 }),
                   (inCurrentChannelKey, { Version := 0, Data := PutUint64 102 })],
            fs := { dirs := ["keys/code37", "keys/code36"],
                    files := [("keys/code37/channelAdmin.key", [1]),
                              ("keys/code37/channelInfo.json", stringBytes "NC_code37"),
                              ("keys/code36/channelAdmin.key", [0]),
                              ("keys/code36/channelInfo.json", stringBytes "NC_code36")] },
            rng := 2, log := ["NC_code36", "NC_code37"] }) ∧
    (manager.mk 10 102 "keys" (some "NC_code37")).inCurrentChannel
      = (sampleManager 8 100).inCurrentChannel + 2 ∧
    (manager.mk 10 102 "keys" (some "NC_code37")).channelCount
      = (sampleManager 8 100).channelCount + 2 ∧
    (inc64 (manager.mk 9 101 "keys" (some "NC_code36")).inCurrentChannel > noobChannelCap ∧
      (manager.mk 10 102 "keys" (some "NC_code37")).inCurrentChannel
        = (manager.mk 9 101 "keys" (some "NC_code36")).inCurrentChannel + 1 ∧
      (manager.mk 10 102 "keys" (some "NC_code37")).channelCount
        = inc64 (manager.mk 9 101 "keys" (some "NC_code36")).channelCount) :=
  have hrun : respondToHelloTimes (sampleEnv []) 2 (sampleManager 8 100) emptyWorld
      = some (manager.mk 10 102 "keys" (some "NC_code37"),
          { kv := [(currentChannelKey, { Version := 0, Data := stringBytes "NC_code37" }),
                   (channelCountKey, { Version := 0, Data := PutUint64 10 }),
                   (inCurrentChannelKey, { Version := 0, Data := PutUint64 102 })],
            fs := { dirs := ["keys/code37", "keys/code36"],
                    files := [("keys/code37/channelAdmin.key", [1]),
                              ("keys/code37/channelInfo.json", stringBytes "NC_code37"),
                              ("keys/code36/channelAdmin.key", [0]),
                              ("keys/code36/channelInfo.json", stringBytes "NC_code36")] },
            rng := 2, log := ["NC_code36", "NC_code37"] }) := by
    decide
  have hall := respondToHello_rotates_every_call (sampleEnv []) (sampleManager 8 100)
    (manager.mk 10 102 "keys" (some "NC_code37")) emptyWorld _ 2 (by decide) (by decide)
    (by decide) hrun
  have hpre : respondToHelloTimes (sampleEnv []) 1 (sampleManager 8 100) emptyWorld
      = some (manager.mk 9 101 "keys" (some "NC_code36"),
          { kv := [(currentChannelKey, { Version := 0, Data := stringBytes "NC_code36" }),
                   (channelCountKey, { Version := 0, Data := PutUint64 9 }),
                   (inCurrentChannelKey, { Version := 0, Data := PutUint64 101 })],
            fs := { dirs := ["keys/code36"],
                    files := [("keys/code36/channelAdmin.key", [0]),
                              ("keys/code36/channelInfo.json", stringBytes "NC_code36")] },
            rng := 1, log := ["NC_code36"] }) := by
    decide
  have hcall : respondToHello (sampleEnv []) (manager.mk 9 101 "keys" (some "NC_code36"))
      { kv := [(currentChannelKey, { Version := 0, Data := stringBytes "NC_code36" }),
               (channelCountKey, { Version := 0, Data := PutUint64 9 }),
               (inCurrentChannelKey, { Version := 0, Data := PutUint64 101 })],
        fs := { dirs := ["keys/code36"],
                files := [("keys/code36/channelAdmin.key", [0]),
                          ("keys/code36/channelInfo.json", stringBytes "NC_code36")] },
        rng := 1, log := ["NC_code36"] }
      = (manager.mk 10 102 "keys" (some "NC_code37"),
          { kv := [(currentChannelKey, { Version := 0, Data := stringBytes "NC_code37" }),
                   (channelCountKey, { Version := 0, Data := PutUint64 10 }),
                   (inCurrentChannelKey, { Version := 0, Data := PutUint64 102 })],
            fs := { dirs := ["keys/code37", "keys/code36"],
                    files := [("keys/code37/channelAdmin.key", [1]),
                              ("keys/code37/channelInfo.json", stringBytes "NC_code37"),
                              ("keys/code36/channelAdmin.key", [0]),
                              ("keys/code36/channelInfo.json", stringBytes "NC_code36")] },
            rng := 2, log := ["NC_code36", "NC_code37"] },
          stringBytes "NC_code37", none) := by
    decide
  have hstep := hall.2.2.2 1 _ _ _ _ _ (by decide) hpre hcall
  ⟨hrun, hall.1, hall.2.2.1 (by decide), hstep.1, hstep.2.1, hstep.2.2.1⟩

end Lemmas

end NoobChannel
